import Mathlib

/-!
Shallow embedding of the remote-skill dispatch engine and the wait engine of
the `codex_manager` Python client (source files
`codex_manager/remote_skills.py` and `codex_manager/wait.py`), together with
theorems settling the frozen specification claims about them.

Python values that the engine inspects are modelled by `PyVal`; Python
functions become Lean functions; functions that can raise become functions
into `Except PyErr`; the monotonic clock and the network are oracles passed
in as functions.  Machine introspection (`inspect.signature`,
docstring parsing, type-annotation-to-schema mapping) is a boundary of the
embedding: its *outputs* are carried as data on the handler model, while all
logic that consumes those outputs is translated from the source.
-/

namespace CodexManager

/-- Python runtime value as far as this engine inspects values: `None`,
`bool`, `int`, `str`, `list`, `dict` with string keys in insertion order.
(Floats and non-JSON objects are never distinguished by any claim.) -/
inductive PyVal where
  | noneV
  | boolV (b : Bool)
  | intV (n : Int)
  | strV (s : String)
  | listV (items : List PyVal)
  | dictV (fields : List (String × PyVal))

/-- Python `dict.get(key)`: the stored value, `None` when the key is absent
or the receiver is not a dict (call sites guard with `isinstance` checks). -/
def PyVal.getd : PyVal → String → PyVal
  | .dictV fields, key => (fields.lookup key).getD .noneV
  | _, _ => .noneV

/-- Python `isinstance(v, dict)`. -/
def PyVal.isDict : PyVal → Bool
  | .dictV _ => true
  | _ => false

/-- Python `str.strip()` character class (whitespace). -/
def pyIsSpace (c : Char) : Bool := c.isWhitespace

/-- Python `str.strip()` on the character list: drop leading and trailing
whitespace. -/
def pyStripList (l : List Char) : List Char :=
  ((l.dropWhile pyIsSpace).reverse.dropWhile pyIsSpace).reverse

/-- Python `str.strip()`. -/
def pyStrip (s : String) : String := String.mk (pyStripList s.data)

/-- `remote_skills._as_non_empty_string`: the stripped string when the value
is a string with non-blank content, else `None`. -/
def _as_non_empty_string (value : PyVal) : Option String :=
  match value with
  | .strV s => let normalized := pyStrip s; if normalized = "" then none else some normalized
  | _ => none

/-- `remote_skills._to_request_id_string`.  Python's `isinstance(value, int)`
is true for `bool` as well, and `str(True) = "True"`. -/
def _to_request_id_string (value : PyVal) : Option String :=
  match value with
  | .intV n => some (toString n)
  | .boolV b => some (cond b "True" "False")
  | v => _as_non_empty_string v

/-- `remote_skills._ToolCallSubmission` (ephemeral per-attempt outcome). -/
structure ToolCallSubmission where
  accepted : Bool
  retryable : Bool
  idempotent : Bool := false
  status : Option String := none
  code : Option String := none
  error : Option String := none
  attempts : Nat := 0
deriving DecidableEq, Repr

/-- Join the `status=... , code=... , message=...` parts of a rejection text,
as built in `_classify_tool_call_response`. -/
def rejectionText (status : String) (code message : Option String) : String :=
  let parts := ["status=" ++ status]
    ++ (match code with | some c => ["code=" ++ c] | none => [])
    ++ (match message with | some m => ["message=" ++ m] | none => [])
  "tool call response rejected by codex-manager with " ++ String.intercalate ", " parts

/-- `remote_skills._classify_tool_call_response`. -/
def _classify_tool_call_response (response : PyVal) : ToolCallSubmission :=
  match response with
  | .dictV _ =>
    let status? := _as_non_empty_string (response.getd "status")
    let code := _as_non_empty_string (response.getd "code")
    let message := _as_non_empty_string (response.getd "message")
    match status? with
    | none =>
      { accepted := false, retryable := true, status := some "malformed", code := code,
        error := some "tool call response rejected by codex-manager with malformed status payload" }
    | some status =>
      if status = "ok" then
        { accepted := true, retryable := false, status := some status, code := code }
      else if status = "conflict" ∧ code = some "in_flight" then
        { accepted := true, retryable := false, idempotent := true, status := some status,
          code := code, error := some "tool call response already in flight" }
      else if status = "not_found" then
        { accepted := true, retryable := false, idempotent := true, status := some status,
          code := code, error := some "tool call already resolved or unavailable" }
      else if status = "error" then
        { accepted := false, retryable := true, status := some status, code := code,
          error := some (rejectionText status code message) }
      else
        { accepted := false, retryable := false, status := some status, code := code,
          error := some (rejectionText status code message) }
  | _ =>
    { accepted := false, retryable := true, status := some "malformed",
      error := some "tool call response rejected by codex-manager with malformed response payload" }

/-- Python exception kinds raised by the engine. -/
inductive PyErr where
  | valueError (message : String)
  | runtimeError (message : String)
deriving DecidableEq, Repr

/-- Module constant `_MAX_HANDLED_REQUEST_IDS`. -/
def _MAX_HANDLED_REQUEST_IDS : Nat := 4096

/-- Module constant `_DISPATCH_MODE_SIGNAL`. -/
def _DISPATCH_MODE_SIGNAL : String := "signal"

/-- Module constant `_DISPATCH_MODE_POLLING`. -/
def _DISPATCH_MODE_POLLING : String := "polling"

/-- Module constant `_CATALOG_MUTATION_ERROR`. -/
def _CATALOG_MUTATION_ERROR : String :=
  "remote skill catalog mutation is create-time only. "
    ++ "Register skills in remote_skills.create_session(register=...) "
    ++ "or remote_skills.lifecycle(register=...)."

/-- Module constant `_RUNTIME_SYNC_DISABLED_ERROR`. -/
def _RUNTIME_SYNC_DISABLED_ERROR : String :=
  "runtime catalog sync is disabled for reliability. Register skills at session creation."

/-- Module constant `_DEFAULT_RESPONSE_SUBMIT_ATTEMPTS`. -/
def _DEFAULT_RESPONSE_SUBMIT_ATTEMPTS : Int := 3

/-- Module constant `_DEFAULT_INPUT_SCHEMA`. -/
def _DEFAULT_INPUT_SCHEMA : PyVal :=
  .dictV [("type", .strV "object"), ("properties", .dictV []), ("additionalProperties", .boolV true)]

/-- Python dict assignment `m[k] = v`: replace in place when the key exists,
else append (dicts preserve insertion order). -/
def assocSet {α : Type} : List (String × α) → String → α → List (String × α)
  | [], k, v => [(k, v)]
  | (k', v') :: rest, k, v =>
    if k' = k then (k, v) :: rest else (k', v') :: assocSet rest k v

/-- Python `m.pop(k, None)`: the removed value (if any) and the remaining dict. -/
def assocPop {α : Type} : List (String × α) → String → Option α × List (String × α)
  | [], _ => (none, [])
  | (k', v) :: rest, k =>
    if k' = k then (some v, rest)
    else
      let r := assocPop rest k
      (r.1, (k', v) :: r.2)

/-- Result of invoking a Python handler: a call either returns a value,
returns an awaitable (`inspect.isawaitable`), or raises (with `str(error)`). -/
inductive HandlerResult where
  | value (v : PyVal)
  | awaitable
  | raises (message : String)

/-- `inspect.Parameter.kind` of one signature parameter. -/
inductive SigParamKind where
  | positionalOnly
  | positionalOrKeyword
  | keywordOnly
  | varPositional
  | varKeyword
deriving DecidableEq, Repr

/-- One parameter of a handler signature, with the JSON schema already
derived from its type annotation (`_annotation_to_json_schema` is runtime
type introspection, a boundary of the embedding; its output is data here). -/
structure SigParam where
  name : String
  kind : SigParamKind
  hasDefault : Bool
  annSchema : PyVal

/-- Output of parsing a handler docstring (`docstring_parser.parse` plus the
normalization in `_docstring_enrichment`): the joined non-blank summary, the
non-blank per-parameter descriptions, and the non-blank returns description. -/
structure DocstringParse where
  schemaDescription : Option String
  paramDescriptions : List (String × String)
  returnDescription : Option String

/-- A Python handler as the engine observes it: its call behavior plus the
introspection facts used for schema/description inference.  `sigParams` is
`none` exactly when `inspect.signature(handler)` raises; `doc` is `none`
exactly when there is no docstring or parsing it fails; `returnAnnSchema` is
`none` exactly when the return annotation is missing or `Any`. -/
structure HandlerMeta where
  call : PyVal → HandlerResult
  sigParams : Option (List SigParam)
  doc : Option DocstringParse
  returnAnnSchema : Option PyVal

/-- `remote_skills._docstring_enrichment`. -/
def _docstring_enrichment (handler : HandlerMeta) :
    Option String × List (String × String) × Option String :=
  match handler.doc with
  | none => (none, [], none)
  | some d => (d.schemaDescription, d.paramDescriptions, d.returnDescription)

/-- `remote_skills._schema_inferred_from_handler`: parameters without
defaults are required, `**kwargs` sets `additionalProperties`, `*args` is
skipped; `none` when the signature is unavailable. -/
def _schema_inferred_from_handler (handler : HandlerMeta) : Option PyVal :=
  match handler.sigParams with
  | none => none
  | some params =>
    let step := fun (acc : List (String × PyVal) × List String × Bool) (p : SigParam) =>
      match p.kind with
      | .varPositional => acc
      | .varKeyword => (acc.1, acc.2.1, true)
      | _ =>
        (assocSet acc.1 p.name p.annSchema,
         if p.hasDefault then acc.2.1 else acc.2.1 ++ [p.name],
         acc.2.2)
    let res := params.foldl step ([], [], false)
    let base := [("type", PyVal.strV "object"), ("properties", PyVal.dictV res.1),
      ("additionalProperties", PyVal.boolV res.2.2)]
    some (.dictV (base ++ (if res.2.1 = [] then [] else
      [("required", PyVal.listV (res.2.1.map PyVal.strV))])))

/-- Set one key of a dict value (no-op on non-dicts). -/
def PyVal.setKey : PyVal → String → PyVal → PyVal
  | .dictV fields, key, value => .dictV (assocSet fields key value)
  | other, _, _ => other

/-- One step of the docstring-description property loop in
`_schema_enriched_with_docstrings`: explicit schemas never gain undeclared
properties. -/
def enrichProp (explicit_schema : Bool) (props : List (String × PyVal)) (nd : String × String) :
    List (String × PyVal) :=
  match props.lookup nd.1 with
  | some (.dictV p) =>
    match _as_non_empty_string ((p.lookup "description").getD .noneV) with
    | some _ => props
    | none => assocSet props nd.1 (.dictV (assocSet p "description" (.strV nd.2)))
  | some _ =>
    if explicit_schema then props
    else assocSet props nd.1 (.dictV [("description", .strV nd.2)])
  | none =>
    if explicit_schema then props
    else assocSet props nd.1 (.dictV [("description", .strV nd.2)])

/-- `remote_skills._schema_enriched_with_docstrings`. -/
def _schema_enriched_with_docstrings (handler : HandlerMeta) (input_schema : Option PyVal) :
    Option PyVal :=
  let explicit_schema := match input_schema with | some (.dictV _) => true | _ => false
  let schema0 : Option PyVal :=
    if explicit_schema then input_schema else _schema_inferred_from_handler handler
  match schema0 with
  | none => none
  | some schema =>
    let enr := _docstring_enrichment handler
    let schema1 :=
      match enr.1 with
      | none => schema
      | some schema_description =>
        match _as_non_empty_string (schema.getd "description") with
        | some _ => schema
        | none => schema.setKey "description" (.strV schema_description)
    let schema2 :=
      match schema1.getd "properties" with
      | .dictV props =>
        schema1.setKey "properties" (.dictV (enr.2.1.foldl (enrichProp explicit_schema) props))
      | _ => schema1
    some schema2

/-- `remote_skills._resolved_skill_description`: explicit text, else the
docstring summary, else `"Remote skill {name}"`. -/
def _resolved_skill_description (normalized_name : String) (handler : HandlerMeta)
    (description : Option String) : String :=
  let fromDoc :=
    match (_docstring_enrichment handler).1 with
    | some doc_description =>
      let inferred := pyStrip doc_description
      if inferred = "" then "Remote skill " ++ normalized_name else inferred
    | none => "Remote skill " ++ normalized_name
  match description with
  | some d =>
    let explicit := pyStrip d
    if explicit = "" then fromDoc else explicit
  | none => fromDoc

/-- `remote_skills._schema_inferred_from_handler_return` (an empty inferred
schema is falsy in Python and degrades to `None`). -/
def _schema_inferred_from_handler_return (handler : HandlerMeta) : Option PyVal :=
  match handler.sigParams with
  | none => none
  | some _ =>
    match handler.returnAnnSchema with
    | none => none
    | some (.dictV []) => none
    | some schema => some schema

/-- `remote_skills._resolved_output_schema`. -/
def _resolved_output_schema (handler : HandlerMeta) (output_schema : Option PyVal) :
    Option PyVal :=
  match output_schema with
  | some (.dictV fields) => some (.dictV fields)
  | _ => _schema_inferred_from_handler_return handler

/-- `remote_skills._resolved_output_description`. -/
def _resolved_output_description (handler : HandlerMeta) (output_schema : Option PyVal) :
    Option String :=
  let fromSchema :=
    match output_schema with
    | some (.dictV fields) => _as_non_empty_string ((fields.lookup "description").getD .noneV)
    | _ => none
  match fromSchema with
  | some d => some d
  | none => (_docstring_enrichment handler).2.2

/-- `remote_skills.RemoteSkill`. -/
structure RemoteSkill where
  name : String
  description : String
  handler : HandlerMeta
  input_schema : Option PyVal
  output_schema : Option PyVal
  output_description : Option String

/-- `remote_skills._SkillRegistry`. -/
structure SkillRegistry where
  skills : List (String × RemoteSkill)
  handled_request_ids : Finset String
  dispatch_mode : Option String
  catalog_locked : Bool

/-- `remote_skills._normalize_skill_name`. -/
def _normalize_skill_name (name : String) : Except PyErr String :=
  let normalized := pyStrip name
  if normalized = "" then .error (.valueError "remote skill name must be non-empty")
  else .ok normalized

/-- `RemoteSkillSession.register` (state threaded explicitly; the pair's
first component is the registry after the call, mutated even when a
post-mutation `sync_runtime` error is raised, exactly as in the source). -/
def register (registry : SkillRegistry) (name : String) (handler : HandlerMeta)
    (description : Option String) (input_schema : Option PyVal) (output_schema : Option PyVal)
    (sync_runtime : Bool) : SkillRegistry × Except PyErr RemoteSkill :=
  if registry.catalog_locked then (registry, .error (.runtimeError _CATALOG_MUTATION_ERROR))
  else
    match _normalize_skill_name name with
    | .error e => (registry, .error e)
    | .ok normalized_name =>
      let skill : RemoteSkill :=
        { name := normalized_name,
          description := _resolved_skill_description normalized_name handler description,
          handler := handler,
          input_schema := _schema_enriched_with_docstrings handler input_schema,
          output_schema := _resolved_output_schema handler output_schema,
          output_description := _resolved_output_description handler output_schema }
      let registry' := { registry with skills := assocSet registry.skills normalized_name skill }
      if sync_runtime then (registry', .error (.runtimeError _RUNTIME_SYNC_DISABLED_ERROR))
      else (registry', .ok skill)

/-- `RemoteSkillSession.unregister`. -/
def unregister (registry : SkillRegistry) (name : String) (sync_runtime : Bool) :
    SkillRegistry × Except PyErr Bool :=
  if registry.catalog_locked then (registry, .error (.runtimeError _CATALOG_MUTATION_ERROR))
  else
    match _normalize_skill_name name with
    | .error e => (registry, .error e)
    | .ok normalized_name =>
      let popped := assocPop registry.skills normalized_name
      let removed := popped.1.isSome
      let registry' := { registry with skills := popped.2 }
      if removed ∧ sync_runtime then (registry', .error (.runtimeError _RUNTIME_SYNC_DISABLED_ERROR))
      else (registry', .ok removed)

/-- `RemoteSkillSession.reset_dispatch_mode`. -/
def reset_dispatch_mode (registry : SkillRegistry) : SkillRegistry :=
  { registry with dispatch_mode := none }

/-- `remote_skills._require_dispatch_mode`: records the mode on first use and
raises a mode-conflict error on a cross-mode dispatch. -/
def _require_dispatch_mode (registry : SkillRegistry) (mode : String) :
    Except PyErr SkillRegistry :=
  if mode ≠ _DISPATCH_MODE_SIGNAL ∧ mode ≠ _DISPATCH_MODE_POLLING then
    .error (.valueError ("unsupported dispatch mode " ++ mode))
  else
    match registry.dispatch_mode with
    | none => .ok { registry with dispatch_mode := some mode }
    | some current =>
      if current = mode then .ok registry
      else
        .error (.runtimeError ("remote skill dispatch mode conflict: session locked to "
          ++ current ++ ", attempted " ++ mode
          ++ ". Call reset_dispatch_mode() before switching dispatch strategies."))

/-- Python `set.pop()` removes an unspecified element; the choice is an
oracle `choose` supplied to the model. -/
def popArbitrary (choose : Finset String → Option String) (s : Finset String) : Finset String :=
  match choose s with
  | some x => s.erase x
  | none => s

/-- The `while len(...) >= _MAX_HANDLED_REQUEST_IDS: pop()` loop of
`_remember_handled_request`, fuelled (the fuel passed is always enough for
any member-choosing oracle). -/
def trimHandledLoop (choose : Finset String → Option String) :
    Nat → Finset String → Finset String
  | 0, s => s
  | fuel+1, s =>
    if _MAX_HANDLED_REQUEST_IDS ≤ s.card then trimHandledLoop choose fuel (popArbitrary choose s)
    else s

/-- `remote_skills._remember_handled_request`: add the id; on overflow evict
then reinsert only the current id. -/
def _remember_handled_request (choose : Finset String → Option String)
    (handled : Finset String) (request_id : String) : Finset String :=
  let s1 := insert request_id handled
  if _MAX_HANDLED_REQUEST_IDS < s1.card then
    let s2 := s1.erase request_id
    insert request_id (trimHandledLoop choose (s2.card + 1) s2)
  else s1

/-- The property of a `set.pop` oracle: it yields a member of every
non-empty set. -/
def ChoosesMember (choose : Finset String → Option String) : Prop :=
  ∀ s : Finset String, s.Nonempty → ∃ x ∈ s, choose s = some x

/-- Code-point comparison of strings, as Python compares `str` keys. -/
def charListLt : List Char → List Char → Bool
  | [], [] => false
  | [], _ :: _ => true
  | _ :: _, [] => false
  | a :: as, b :: bs =>
    if a.toNat < b.toNat then true
    else if b.toNat < a.toNat then false
    else charListLt as bs

/-- Boolean `a <= b` on strings by code points. -/
def strLeB (a b : String) : Bool := ! charListLt b.data a.data

/-- Insert a key into an ascending list (for `sorted(...)`). -/
def insortKey (k : String) : List String → List String
  | [] => [k]
  | x :: xs => if strLeB k x then k :: x :: xs else x :: insortKey k xs

/-- Python `sorted(...)` over strings (ascending by code point). -/
def sortedStrings (l : List String) : List String := l.foldr insortKey []

/-- Insertion sort of rendered dict entries by key (for
`json.dumps(..., sort_keys=True)`). -/
def insortPair (p : String × String) : List (String × String) → List (String × String)
  | [] => [p]
  | x :: xs => if strLeB p.1 x.1 then p :: x :: xs else x :: insortPair p xs

/-- Sort rendered dict entries by key. -/
def sortPairsByKey (l : List (String × String)) : List (String × String) :=
  l.foldr insortPair []

mutual

/-- `json.dumps(value, ensure_ascii=True, sort_keys=True)` to the extent the
engine depends on it: dict keys are sorted recursively.  (Character escaping
inside strings is not modelled; no claim inspects serialized text.) -/
def pyJsonDumps : PyVal → String
  | .noneV => "null"
  | .boolV b => cond b "true" "false"
  | .intV n => toString n
  | .strV s => "\"" ++ s ++ "\""
  | .listV items => "[" ++ String.intercalate ", " (pyJsonDumpsList items) ++ "]"
  | .dictV fields =>
    "\x7b" ++ String.intercalate ", " ((sortPairsByKey (pyJsonDumpsFields fields)).map Prod.snd)
      ++ "\x7d"

/-- Render each list item. -/
def pyJsonDumpsList : List PyVal → List String
  | [] => []
  | v :: rest => pyJsonDumps v :: pyJsonDumpsList rest

/-- Render each dict entry, keeping the key for sorting. -/
def pyJsonDumpsFields : List (String × PyVal) → List (String × String)
  | [] => []
  | (k, v) :: rest => (k, "\"" ++ k ++ "\": " ++ pyJsonDumps v) :: pyJsonDumpsFields rest

end

/-- `remote_skills._as_output_text`. -/
def _as_output_text (value : PyVal) : String :=
  match value with
  | .noneV => "null"
  | .strV s => s
  | v => pyJsonDumps v

/-- `remote_skills._normalize_response_payload`: pass through an exact
`{contentItems: [...], success: bool}` envelope, else wrap as one text item. -/
def _normalize_response_payload (result : PyVal) : PyVal :=
  let wrapped : PyVal := .dictV
    [("contentItems", .listV [.dictV [("type", .strV "inputText"),
        ("text", .strV (_as_output_text result))]]),
     ("success", .boolV true)]
  match result with
  | .dictV fields =>
    let has_content_items := match fields.lookup "contentItems" with
      | some (.listV _) => true
      | _ => false
    let has_success := match fields.lookup "success" with
      | some (.boolV _) => true
      | _ => false
    if has_content_items && has_success then .dictV fields else wrapped
  | _ => wrapped

/-- `remote_skills._error_response_payload`. -/
def _error_response_payload (tool : String) (message : String) : PyVal :=
  .dictV [("contentItems", .listV [.dictV [("type", .strV "inputText"),
      ("text", .strV ("remote skill " ++ tool ++ " failed: " ++ message))]]),
    ("success", .boolV false)]

/-- `remote_skills.RemoteSkillDispatch`. -/
structure RemoteSkillDispatch where
  handled : Bool
  tool : String
  arguments : PyVal := .noneV
  request_id : PyVal := .noneV
  call_id : Option String := none
  response_payload : Option PyVal := none
  result : Option PyVal := none
  error : Option String := none
  submission_status : Option String := none
  submission_code : Option String := none
  submission_attempts : Nat := 0
  submission_idempotent : Bool := false

/-- `RemoteSkillSession.dispatch_tool_call`: match the tool, invoke the
handler, normalize the outcome; handler exceptions and sync/async misuse
become failure dispatches, never propagate. -/
def dispatch_tool_call (registry : SkillRegistry) (tool : String) (arguments : PyVal)
    (request_id : PyVal) (call_id : Option String) : Except PyErr RemoteSkillDispatch :=
  match _normalize_skill_name tool with
  | .error e => .error e
  | .ok normalized_tool =>
    match registry.skills.lookup normalized_tool with
    | none =>
      let missing_message := "no remote skill registered for " ++ normalized_tool
      .ok { handled := false, tool := normalized_tool, arguments := arguments,
            request_id := request_id, call_id := call_id,
            response_payload := some (.dictV
              [("contentItems", .listV [.dictV [("type", .strV "inputText"),
                  ("text", .strV missing_message)]]),
               ("success", .boolV false)]),
            error := some missing_message }
    | some skill =>
      match skill.handler.call arguments with
      | .value result =>
        .ok { handled := true, tool := normalized_tool, arguments := arguments,
              request_id := request_id, call_id := call_id,
              response_payload := some (_normalize_response_payload result),
              result := some result }
      | .awaitable =>
        let message := "remote skill " ++ normalized_tool
          ++ " returned awaitable in sync context; use AsyncCodexManager"
        .ok { handled := false, tool := normalized_tool, arguments := arguments,
              request_id := request_id, call_id := call_id,
              response_payload := some (_error_response_payload normalized_tool message),
              error := some message }
      | .raises message =>
        .ok { handled := false, tool := normalized_tool, arguments := arguments,
              request_id := request_id, call_id := call_id,
              response_payload := some (_error_response_payload normalized_tool message),
              error := some message }

/-- Oracle for `client.tool_calls.respond(request_id, response)`: given the
request id, the payload and the 1-based attempt number, either the parsed
response payload or the `str(error)` of a raised transport exception. -/
def ToolCallsClient : Type := String → Option PyVal → Nat → Except String PyVal

/-- `remote_skills._normalize_retry_settings`. -/
def _normalize_retry_settings (max_submit_attempts : Int) (retry_delay_seconds : ℚ) :
    Nat × ℚ :=
  (if max_submit_attempts < 1 then 1 else max_submit_attempts.toNat,
   if retry_delay_seconds < 0 then 0 else retry_delay_seconds)

/-- The `for attempt in range(1, attempts + 1)` body of
`_submit_tool_call_response`; `fuel` is the number of attempts still allowed
including the current one, `attempt` the current 1-based index.  The second
component counts network calls actually made.  (The fuel-0 branch mirrors
the dead `last_submission or ...` fallback after the Python loop; it is
unreachable because the loop always returns on its final attempt.) -/
def submitLoop (client : ToolCallsClient) (request_id : String)
    (response_payload : Option PyVal) : Nat → Nat → ToolCallSubmission × Nat
  | 0, attempt =>
    ({ accepted := false, retryable := false, status := some "error",
       error := some "tool call response submission exhausted without result",
       attempts := attempt - 1 }, attempt - 1)
  | fuel+1, attempt =>
    match client request_id response_payload attempt with
    | .error message =>
      if fuel = 0 then
        ({ accepted := false, retryable := false, status := some "exception",
           error := some ("tool call response submit failed: " ++ message),
           attempts := attempt }, attempt)
      else submitLoop client request_id response_payload fuel (attempt + 1)
    | .ok response =>
      let submission := { _classify_tool_call_response response with attempts := attempt }
      if submission.accepted then (submission, attempt)
      else if submission.retryable ∧ fuel ≠ 0 then
        submitLoop client request_id response_payload fuel (attempt + 1)
      else (submission, attempt)

/-- `RemoteSkillSession._submit_tool_call_response`. -/
def _submit_tool_call_response (client : ToolCallsClient) (request_id : String)
    (response_payload : Option PyVal) (max_submit_attempts : Int)
    (retry_delay_seconds : ℚ) : ToolCallSubmission × Nat :=
  let attempts := (_normalize_retry_settings max_submit_attempts retry_delay_seconds).1
  submitLoop client request_id response_payload attempts 1

/-- Python `value or default` on an optional string (empty is falsy). -/
def pyOrString (value : Option String) (dflt : String) : String :=
  match value with
  | some s => if s = "" then dflt else s
  | none => dflt

/-- `RemoteSkillSession._finalize_submitted_dispatch`: copy the submission
outcome onto the dispatch; on acceptance remember the request id, otherwise
downgrade `handled` to `false` with the classified error text. -/
def _finalize_submitted_dispatch (choose : Finset String → Option String)
    (registry : SkillRegistry) (dispatched : RemoteSkillDispatch)
    (submission : ToolCallSubmission) (request_id : String) :
    RemoteSkillDispatch × SkillRegistry :=
  let d := { dispatched with
    submission_status := submission.status,
    submission_code := submission.code,
    submission_attempts := submission.attempts,
    submission_idempotent := submission.idempotent }
  if submission.accepted then
    (d, { registry with handled_request_ids :=
        _remember_handled_request choose registry.handled_request_ids request_id })
  else
    let d' := { d with
      handled := false,
      error := some (pyOrString submission.error "tool call response submission failed") }
    (d', registry)

/-- `models.AppServerSignal` after `from_stream_event` normalization:
`request_id` is a `str`, an `int` (Python `bool` included), or `None`. -/
structure AppServerSignal where
  event_type : String
  context : List (String × PyVal)
  params : PyVal
  session : Option (List (String × PyVal))
  request_id : PyVal

/-- `remote_skills._parse_tool_call_signal`: `(tool, arguments, callId)`,
with `tool = none` for anything that is not a tool-call indication. -/
def _parse_tool_call_signal (signal : AppServerSignal) :
    Option String × PyVal × Option String :=
  if signal.event_type ≠ "app_server.request.item.tool.call" then (none, .noneV, none)
  else
    let params := match signal.params with
      | .dictV fields => PyVal.dictV fields
      | _ => PyVal.dictV []
    match params.getd "tool" with
    | .strV tool =>
      if pyStrip tool = "" then (none, .noneV, none)
      else
        let normalized_call_id := match params.getd "callId" with
          | .strV c => if pyStrip c = "" then none else some c
          | _ => none
        (some (pyStrip tool), params.getd "arguments", normalized_call_id)
    | _ => (none, .noneV, none)

/-- `remote_skills._parse_pending_tool_call`:
`(request_id, tool, arguments, callId)`.  Python's `isinstance(x, int)` is
true for `bool`, so booleans survive as request ids. -/
def _parse_pending_tool_call (record : PyVal) :
    PyVal × Option String × PyVal × Option String :=
  match record with
  | .dictV _ =>
    let request_id := match record.getd "requestId" with
      | .strV s => PyVal.strV s
      | .intV n => PyVal.intV n
      | .boolV b => PyVal.boolV b
      | _ => PyVal.noneV
    match record.getd "tool" with
    | .strV tool =>
      if pyStrip tool = "" then (request_id, none, record.getd "arguments", none)
      else
        let normalized_call_id := match record.getd "callId" with
          | .strV c => if pyStrip c = "" then none else some c
          | _ => none
        (request_id, some (pyStrip tool), record.getd "arguments", normalized_call_id)
    | _ => (request_id, none, record.getd "arguments", none)
  | _ => (.noneV, none, .noneV, none)

/-- `remote_skills._signal_session_id`: the session's non-empty `id`, else
the context's non-empty `threadId`. -/
def _signal_session_id (signal : AppServerSignal) : Option String :=
  match _as_non_empty_string ((PyVal.dictV (signal.session.getD [])).getd "id") with
  | some session_id => some session_id
  | none => _as_non_empty_string ((PyVal.dictV signal.context).getd "threadId")

/-- `remote_skills._pending_call_session_id`. -/
def _pending_call_session_id (record : PyVal) : Option String :=
  match record with
  | .dictV _ => _as_non_empty_string (record.getd "threadId")
  | _ => none

/-- `RemoteSkillSession.matches_signal`. -/
def matches_signal (session_id : String) (signal : AppServerSignal) : Bool :=
  match _signal_session_id signal with
  | none => true
  | some signal_session_id => signal_session_id = session_id

/-- Observable outcome of one `respond_to_*` call: the registry afterwards,
the returned dispatch (or raised error), and how many
`tool_calls.respond` network calls were made. -/
structure RespondResult where
  registry : SkillRegistry
  outcome : Except PyErr (Option RemoteSkillDispatch)
  networkCalls : Nat

/-- `RemoteSkillSession.respond_to_signal`. -/
def respond_to_signal (choose : Finset String → Option String) (client : ToolCallsClient)
    (session_id : String) (registry : SkillRegistry) (signal : AppServerSignal)
    (max_submit_attempts : Int) (retry_delay_seconds : ℚ) : RespondResult :=
  if ¬ matches_signal session_id signal then ⟨registry, .ok none, 0⟩
  else
    let parsed := _parse_tool_call_signal signal
    match parsed.1 with
    | none => ⟨registry, .ok none, 0⟩
    | some tool =>
      match _require_dispatch_mode registry _DISPATCH_MODE_SIGNAL with
      | .error e => ⟨registry, .error e, 0⟩
      | .ok registry1 =>
        match dispatch_tool_call registry1 tool parsed.2.1 signal.request_id parsed.2.2 with
        | .error e => ⟨registry1, .error e, 0⟩
        | .ok dispatched =>
          match _to_request_id_string dispatched.request_id with
          | none =>
            ⟨registry1, .ok (some { dispatched with submission_status := some "no_request_id" }), 0⟩
          | some request_id =>
            if request_id ∈ registry1.handled_request_ids then
              ⟨registry1, .ok (some { dispatched with
                submission_status := some "local_duplicate",
                submission_idempotent := true }), 0⟩
            else
              let sn := _submit_tool_call_response client request_id dispatched.response_payload
                max_submit_attempts retry_delay_seconds
              let fin := _finalize_submitted_dispatch choose registry1 dispatched sn.1 request_id
              ⟨fin.2, .ok (some fin.1), sn.2⟩

/-- `RemoteSkillSession.respond_to_pending_call`. -/
def respond_to_pending_call (choose : Finset String → Option String) (client : ToolCallsClient)
    (session_id : String) (registry : SkillRegistry) (pending_call : PyVal)
    (max_submit_attempts : Int) (retry_delay_seconds : ℚ) : RespondResult :=
  if (match _pending_call_session_id pending_call with
      | some pending_session_id => pending_session_id != session_id
      | none => false) then ⟨registry, .ok none, 0⟩
  else
    let parsed := _parse_pending_tool_call pending_call
    match parsed.2.1 with
    | none => ⟨registry, .ok none, 0⟩
    | some tool =>
      match _require_dispatch_mode registry _DISPATCH_MODE_POLLING with
      | .error e => ⟨registry, .error e, 0⟩
      | .ok registry1 =>
        match dispatch_tool_call registry1 tool parsed.2.2.1 parsed.1 parsed.2.2.2 with
        | .error e => ⟨registry1, .error e, 0⟩
        | .ok dispatched =>
          match _to_request_id_string dispatched.request_id with
          | none =>
            ⟨registry1, .ok (some { dispatched with submission_status := some "no_request_id" }), 0⟩
          | some request_id_normalized =>
            if request_id_normalized ∈ registry1.handled_request_ids then
              ⟨registry1, .ok (some { dispatched with
                submission_status := some "local_duplicate",
                submission_idempotent := true }), 0⟩
            else
              let sn := _submit_tool_call_response client request_id_normalized
                dispatched.response_payload max_submit_attempts retry_delay_seconds
              let fin := _finalize_submitted_dispatch choose registry1 dispatched sn.1
                request_id_normalized
              ⟨fin.2, .ok (some fin.1), sn.2⟩

/-- `_resolved_input_schema`: an explicit dict schema is authoritative, else
the module default (deep copies are identities in the pure model). -/
def _resolved_input_schema (skill : RemoteSkill) : PyVal :=
  match skill.input_schema with
  | some (.dictV fields) => .dictV fields
  | _ => _DEFAULT_INPUT_SCHEMA

/-- `remote_skills._dynamic_tool_definitions`: one
`{name, description, inputSchema}` payload per skill, in sorted-name order. -/
def _dynamic_tool_definitions (skills : List (String × RemoteSkill)) : List PyVal :=
  (sortedStrings (skills.map Prod.fst)).filterMap (fun name =>
    (skills.lookup name).map (fun skill =>
      PyVal.dictV [("name", .strV skill.name), ("description", .strV skill.description),
        ("inputSchema", _resolved_input_schema skill)]))

/-- Timeout information carried by `WaitTimeoutError` as raised in
`WaitApi.until` (`_wait_timeout_message` renders these three facts). -/
structure WaitTimeoutInfo where
  description : Option String
  timeoutSeconds : ℚ
  attempts : Nat
deriving DecidableEq, Repr

/-- Outcome of `WaitApi.until`: the matched value with the attempt count, a
timeout error, an eager argument-validation error, or fuel exhaustion (a
model artifact: the real loop would still be running). -/
inductive UntilOutcome (α : Type) where
  | ok (value : α) (attempts : Nat)
  | timeout (info : WaitTimeoutInfo)
  | invalidArgs (message : String)
  | outOfFuel
deriving DecidableEq, Repr

/-- The polling loop of `WaitApi.until`.  `poll n` is the n-th poll result
(1-based) and `elapsedAfter n` the monotonic-clock elapsed time measured
after the n-th failed check; both are oracles for the outside world. -/
def untilLoop {α : Type} (poll : Nat → α) (check : α → Bool) (elapsedAfter : Nat → ℚ)
    (timeoutSeconds : ℚ) (maxAttempts : Option Int) (description : Option String) :
    Nat → Nat → UntilOutcome α
  | 0, _ => .outOfFuel
  | fuel+1, attempts =>
    let attempts' := attempts + 1
    let value := poll attempts'
    if check value then .ok value attempts'
    else if (match maxAttempts with
             | some n => decide (n ≤ (attempts' : Int))
             | none => false) then
      .timeout ⟨description, timeoutSeconds, attempts'⟩
    else if timeoutSeconds ≤ elapsedAfter attempts' then
      .timeout ⟨description, timeoutSeconds, attempts'⟩
    else untilLoop poll check elapsedAfter timeoutSeconds maxAttempts description fuel attempts'

/-- `wait.WaitApi.until`: eager argument validation, then the polling loop.
`check` is the predicate (the Python default is truthiness of the polled
value; callers in the claims pass explicit predicates). -/
def WaitApi_until {α : Type} (poll : Nat → α) (check : α → Bool) (elapsedAfter : Nat → ℚ)
    (timeoutSeconds intervalSeconds initialDelaySeconds : ℚ) (maxAttempts : Option Int)
    (description : Option String) (fuel : Nat) : UntilOutcome α :=
  if timeoutSeconds ≤ 0 then .invalidArgs "timeout_seconds must be > 0"
  else if intervalSeconds ≤ 0 then .invalidArgs "interval_seconds must be > 0"
  else if initialDelaySeconds < 0 then .invalidArgs "initial_delay_seconds must be >= 0"
  else if (match maxAttempts with
           | some n => decide (n ≤ 0)
           | none => false) then .invalidArgs "max_attempts must be > 0 when provided"
  else untilLoop poll check elapsedAfter timeoutSeconds maxAttempts description fuel 0

/-- A concrete `set.pop` oracle: the least element in sort order. -/
def sortChoose (s : Finset String) : Option String :=
  (Finset.sort (fun a b => a ≤ b) s).head?

/-- Python's `isinstance(value, (str, int))` (true for `bool` as well). -/
def isStrIntOrBool : PyVal → Bool
  | .strV _ => true
  | .intV _ => true
  | .boolV _ => true
  | _ => false

/-- Introspection model of `def ping(): return "pong"`: an inspectable
no-parameter signature, no docstring, no return annotation. -/
def pingMeta : HandlerMeta :=
  { call := fun _ => .value (.strV "pong"),
    sigParams := some [],
    doc := none,
    returnAnnSchema := none }

/-- A concrete tool-call indication for the `ping` skill. -/
def pingSignal : AppServerSignal :=
  { event_type := "app_server.request.item.tool.call",
    context := [],
    params := .dictV [("tool", .strV "ping"), ("arguments", .dictV [])],
    session := some [("id", .strV "session-1")],
    request_id := .strV "req-1" }

/-- A concrete pending tool-call row for the `ping` skill. -/
def pingPending : PyVal :=
  .dictV [("requestId", .strV "9"), ("tool", .strV "ping"),
    ("arguments", .dictV []), ("threadId", .strV "session-1")]

/-- A transport oracle whose every attempt raises (the claims exercised on
it never reach the network). -/
def nullClient : ToolCallsClient := fun _ _ _ => .error "network unavailable"

theorem dropWhile_head_not_sat {p : Char → Bool} {l : List Char} {c : Char}
    (h : (l.dropWhile p).head? = some c) : p c = false := by
  induction l with
  | nil => simp [List.dropWhile] at h
  | cons a as ih =>
    rw [List.dropWhile_cons] at h
    by_cases hp : p a
    · rw [if_pos hp] at h
      exact ih h
    · rw [if_neg hp] at h
      simp only [List.head?_cons, Option.some.injEq] at h
      rw [← h]
      simpa [Bool.not_eq_true] using hp

theorem dropWhile_ne_nil_getLast {p : Char → Bool} {l : List Char}
    (h : l.dropWhile p ≠ []) : (l.dropWhile p).getLast? = l.getLast? := by
  induction l with
  | nil => simp [List.dropWhile] at h
  | cons a as ih =>
    rw [List.dropWhile_cons] at h ⊢
    by_cases hp : p a
    · rw [if_pos hp] at h ⊢
      rw [ih h]
      have has : as ≠ [] := by
        intro e
        rw [e] at h
        simp [List.dropWhile] at h
      cases as with
      | nil => exact absurd rfl has
      | cons b bs => rw [List.getLast?_cons_cons]
    · rw [if_neg hp]

theorem pyStripList_head {l : List Char} {c : Char}
    (h : (pyStripList l).head? = some c) : pyIsSpace c = false := by
  unfold pyStripList at h
  rw [List.head?_reverse] at h
  have hne : (l.dropWhile pyIsSpace).reverse.dropWhile pyIsSpace ≠ [] := by
    intro e
    rw [e] at h
    simp at h
  rw [dropWhile_ne_nil_getLast hne, List.getLast?_reverse] at h
  exact dropWhile_head_not_sat h

theorem pyStripList_getLast {l : List Char} {c : Char}
    (h : (pyStripList l).getLast? = some c) : pyIsSpace c = false := by
  unfold pyStripList at h
  rw [List.getLast?_reverse] at h
  exact dropWhile_head_not_sat h

theorem dropWhile_eq_self_of_head {p : Char → Bool} {l : List Char}
    (h : ∀ c, l.head? = some c → p c = false) : l.dropWhile p = l := by
  cases l with
  | nil => rfl
  | cons a as =>
    rw [List.dropWhile_cons, if_neg]
    simp [h a rfl]

theorem pyStripList_idem (l : List Char) : pyStripList (pyStripList l) = pyStripList l := by
  have h1 : (pyStripList l).dropWhile pyIsSpace = pyStripList l :=
    dropWhile_eq_self_of_head (fun c hc => pyStripList_head hc)
  have h2 : (pyStripList l).reverse.dropWhile pyIsSpace = (pyStripList l).reverse :=
    dropWhile_eq_self_of_head (fun c hc => by
      rw [List.head?_reverse] at hc
      exact pyStripList_getLast hc)
  show (((pyStripList l).dropWhile pyIsSpace).reverse.dropWhile pyIsSpace).reverse = pyStripList l
  rw [h1, h2, List.reverse_reverse]

theorem pyStrip_idem (s : String) : pyStrip (pyStrip s) = pyStrip s := by
  show String.mk (pyStripList (String.mk (pyStripList s.data)).data) = String.mk (pyStripList s.data)
  rw [show (String.mk (pyStripList s.data)).data = pyStripList s.data from rfl, pyStripList_idem]

theorem normalize_of_stripped {t : String} (ht : pyStrip t = t) (hne : t ≠ "") :
    _normalize_skill_name t = .ok t := by
  unfold _normalize_skill_name
  rw [ht, if_neg hne]

/-- C3: a submission with `accepted=false` downgrades the finalized Dispatch
to `handled=false` and installs the classified error text (even when local
execution succeeded, since `dispatched` is arbitrary here), and finalization
never turns `handled` from false to true. -/
theorem finalize_rejected_downgrades_handled :
    ∀ (choose : Finset String → Option String) (registry : SkillRegistry)
      (dispatched : RemoteSkillDispatch) (submission : ToolCallSubmission)
      (request_id : String),
      (submission.accepted = false →
        (_finalize_submitted_dispatch choose registry dispatched submission request_id).1.handled
            = false ∧
        (_finalize_submitted_dispatch choose registry dispatched submission request_id).1.error
            = some (pyOrString submission.error "tool call response submission failed") ∧
        (∀ e, submission.error = some e → e ≠ "" →
          (_finalize_submitted_dispatch choose registry dispatched submission request_id).1.error
              = some e)) ∧
      ((_finalize_submitted_dispatch choose registry dispatched submission request_id).1.handled
            = true →
        dispatched.handled = true) := by
  intro choose registry dispatched submission request_id
  unfold _finalize_submitted_dispatch
  by_cases ha : submission.accepted
  · simp [ha]
  · simp only [Bool.not_eq_true] at ha
    refine ⟨fun _ => ⟨by simp [ha], by simp [ha], fun e he hne => ?_⟩, fun h => ?_⟩
    · simp [ha, pyOrString, he, hne]
    · simp [ha] at h

/-- C3 witness: a concrete rejected submission on a locally-successful
dispatch ends with `handled=false` and the classified error text. -/
theorem finalize_rejected_downgrades_handled_witness :
    (_finalize_submitted_dispatch (fun _ => none) ⟨[], ∅, none, false⟩
        { handled := true, tool := "ping" }
        { accepted := false, retryable := true, error := some "status=error" } "rid-1").1.handled
        = false ∧
    (_finalize_submitted_dispatch (fun _ => none) ⟨[], ∅, none, false⟩
        { handled := true, tool := "ping" }
        { accepted := false, retryable := true, error := some "status=error" } "rid-1").1.error
        = some "status=error" := by
  refine ⟨((finalize_rejected_downgrades_handled (fun _ => none) ⟨[], ∅, none, false⟩
    { handled := true, tool := "ping" }
    { accepted := false, retryable := true, error := some "status=error" } "rid-1").1 rfl).1, ?_⟩
  exact ((finalize_rejected_downgrades_handled (fun _ => none) ⟨[], ∅, none, false⟩
    { handled := true, tool := "ping" }
    { accepted := false, retryable := true, error := some "status=error" } "rid-1").1 rfl).2.2
    "status=error" rfl (by decide)

/-- C4 counterexample: for the concrete object payload `{}` (no `status`
field) the classifier does NOT return `accepted=true, retryable=false`; the
claim's asserted outcome fails on this input. -/
theorem classify_missing_status_counterexample :
    ¬ ((_classify_tool_call_response (.dictV [])).accepted = true ∧
       (_classify_tool_call_response (.dictV [])).retryable = false) := by
  decide

/-- C4 (amended): an object payload with no recognizable `status` field is
classified `status="malformed"`, `accepted=false`, `retryable=true` — the
spec's `accepted=true` row holds only for a literal `status="ok"`. -/
theorem classify_missing_status_malformed :
    ∀ (response : PyVal) (fields : List (String × PyVal)),
      response = .dictV fields →
      _as_non_empty_string (response.getd "status") = none →
      _classify_tool_call_response response =
        { accepted := false, retryable := true, status := some "malformed",
          code := _as_non_empty_string (response.getd "code"),
          error := some "tool call response rejected by codex-manager with malformed status payload" } := by
  intro response fields hdict hstatus
  subst hdict
  unfold _classify_tool_call_response
  rw [hstatus]

/-- C4 witness: a concrete result-bearing object without `status` is
classified malformed/retryable. -/
theorem classify_missing_status_malformed_witness :
    _classify_tool_call_response (.dictV [("result", .strV "done")]) =
      { accepted := false, retryable := true, status := some "malformed", code := none,
        error := some "tool call response rejected by codex-manager with malformed status payload" } :=
  classify_missing_status_malformed (.dictV [("result", .strV "done")])
    [("result", .strV "done")] rfl rfl

theorem trimLoop_reduces {choose : Finset String → Option String}
    (hchoose : ChoosesMember choose) :
    ∀ (fuel : Nat) (s : Finset String),
      (trimHandledLoop choose fuel s).card < _MAX_HANDLED_REQUEST_IDS ∨
      (trimHandledLoop choose fuel s).card + fuel ≤ s.card := by
  intro fuel
  induction fuel with
  | zero =>
    intro s
    right
    simp [trimHandledLoop]
  | succ n ih =>
    intro s
    rw [trimHandledLoop]
    by_cases hc : _MAX_HANDLED_REQUEST_IDS ≤ s.card
    · rw [if_pos hc]
      have hpos : 0 < s.card := lt_of_lt_of_le (by norm_num [_MAX_HANDLED_REQUEST_IDS]) hc
      obtain ⟨x, hx, hcx⟩ := hchoose s (Finset.card_pos.mp hpos)
      have hpop : popArbitrary choose s = s.erase x := by rw [popArbitrary, hcx]
      have hcard : (s.erase x).card + 1 = s.card := Finset.card_erase_add_one hx
      rw [hpop]
      rcases ih (s.erase x) with h | h
      · left
        exact h
      · right
        omega
    · rw [if_neg hc]
      left
      omega

theorem trim_after_full {choose : Finset String → Option String}
    (hchoose : ChoosesMember choose) (s : Finset String) :
    (trimHandledLoop choose (s.card + 1) s).card < _MAX_HANDLED_REQUEST_IDS := by
  rcases trimLoop_reduces hchoose (s.card + 1) s with h | h
  · exact h
  · omega

theorem remember_step {choose : Finset String → Option String} (hchoose : ChoosesMember choose)
    (handled : Finset String) (request_id : String)
    (hle : handled.card ≤ _MAX_HANDLED_REQUEST_IDS) :
    (_remember_handled_request choose handled request_id).card ≤ _MAX_HANDLED_REQUEST_IDS ∧
    request_id ∈ _remember_handled_request choose handled request_id := by
  unfold _remember_handled_request
  by_cases hov : _MAX_HANDLED_REQUEST_IDS < (insert request_id handled).card
  · rw [if_pos hov]
    refine ⟨?_, Finset.mem_insert_self _ _⟩
    show (insert request_id
        (trimHandledLoop choose (((insert request_id handled).erase request_id).card + 1)
          ((insert request_id handled).erase request_id))).card ≤ _MAX_HANDLED_REQUEST_IDS
    have htrim := trim_after_full hchoose ((insert request_id handled).erase request_id)
    have hins := Finset.card_insert_le request_id
      (trimHandledLoop choose (((insert request_id handled).erase request_id).card + 1)
        ((insert request_id handled).erase request_id))
    omega
  · rw [if_neg hov]
    exact ⟨by omega, Finset.mem_insert_self _ _⟩

theorem sortChoose_mem : ChoosesMember sortChoose := by
  intro s hs
  unfold sortChoose
  have hlen : (Finset.sort (fun a b => a ≤ b) s).length = s.card := Finset.length_sort _
  have hpos : 0 < s.card := Finset.card_pos.mpr hs
  obtain ⟨x, xs, hsort⟩ : ∃ x xs, Finset.sort (fun a b => a ≤ b) s = x :: xs := by
    cases hd : Finset.sort (fun a b => a ≤ b) s with
    | nil =>
      exfalso
      rw [hd] at hlen
      simp at hlen
      omega
    | cons x xs => exact ⟨x, xs, rfl⟩
  refine ⟨x, ?_, ?_⟩
  · have hmem : x ∈ Finset.sort (fun a b => a ≤ b) s := by
      rw [hsort]
      exact List.mem_cons_self x xs
    exact (Finset.mem_sort _).mp hmem
  · rw [hsort]
    rfl

/-- C2: for every member-choosing `set.pop` oracle, each
`_remember_handled_request` call keeps the dedup set at or below the 4096
capacity and leaves the just-inserted id present; consequently any sequence
of insertions starting from the empty set stays bounded. -/
theorem remember_handled_request_bounded :
    ∀ (choose : Finset String → Option String), ChoosesMember choose →
      (∀ (handled : Finset String) (request_id : String),
        handled.card ≤ _MAX_HANDLED_REQUEST_IDS →
          (_remember_handled_request choose handled request_id).card
              ≤ _MAX_HANDLED_REQUEST_IDS ∧
          request_id ∈ _remember_handled_request choose handled request_id) ∧
      (∀ ids : List String,
        (ids.foldl (_remember_handled_request choose) ∅).card ≤ _MAX_HANDLED_REQUEST_IDS) := by
  intro choose hchoose
  refine ⟨fun handled request_id hle => remember_step hchoose handled request_id hle, ?_⟩
  have inv : ∀ (ids : List String) (s : Finset String),
      s.card ≤ _MAX_HANDLED_REQUEST_IDS →
      (ids.foldl (_remember_handled_request choose) s).card ≤ _MAX_HANDLED_REQUEST_IDS := by
    intro ids
    induction ids with
    | nil =>
      intro s h
      simpa using h
    | cons a as ih =>
      intro s h
      rw [List.foldl_cons]
      exact ih _ (remember_step hchoose s a h).1
  intro ids
  exact inv ids ∅ (by simp)

/-- C2 witness: the sort-order pop oracle chooses members, and one concrete
insertion into the empty set stays within capacity and is remembered. -/
theorem remember_handled_request_bounded_witness :
    (_remember_handled_request sortChoose ∅ "req-1").card ≤ _MAX_HANDLED_REQUEST_IDS ∧
    "req-1" ∈ _remember_handled_request sortChoose ∅ "req-1" :=
  (remember_handled_request_bounded sortChoose sortChoose_mem).1 ∅ "req-1" (by simp)

theorem untilLoop_succ {α : Type} (poll : Nat → α) (check : α → Bool) (elapsed : Nat → ℚ)
    (timeout : ℚ) (maxA : Option Int) (desc : Option String) (fuel attempts : Nat) :
    untilLoop poll check elapsed timeout maxA desc (fuel + 1) attempts =
      (if check (poll (attempts + 1)) then .ok (poll (attempts + 1)) (attempts + 1)
       else if (match maxA with
                | some n => decide (n ≤ ((attempts + 1 : Nat) : Int))
                | none => false) then .timeout ⟨desc, timeout, attempts + 1⟩
       else if timeout ≤ elapsed (attempts + 1) then .timeout ⟨desc, timeout, attempts + 1⟩
       else untilLoop poll check elapsed timeout maxA desc fuel (attempts + 1)) := rfl

theorem untilLoop_never_step {α : Type} (poll : Nat → α) (elapsed : Nat → ℚ) (timeout : ℚ)
    (desc : Option String) (n : Int) (f attempts : Nat) :
    untilLoop poll (fun _ => false) elapsed timeout (some n) desc (f + 1) attempts =
      (if n ≤ ((attempts + 1 : Nat) : Int) then
        UntilOutcome.timeout ⟨desc, timeout, attempts + 1⟩
       else if timeout ≤ elapsed (attempts + 1) then
        UntilOutcome.timeout ⟨desc, timeout, attempts + 1⟩
       else untilLoop poll (fun _ => false) elapsed timeout (some n) desc f (attempts + 1)) := by
  rw [untilLoop_succ]
  simp

theorem WaitApi_until_run {α : Type} (poll : Nat → α) (check : α → Bool) (elapsed : Nat → ℚ)
    (timeout interval delay : ℚ) (maxA : Option Int) (desc : Option String) (fuel : Nat)
    (ht : 0 < timeout) (hi : 0 < interval) (hd : 0 ≤ delay)
    (hm : ∀ n, maxA = some n → 0 < n) :
    WaitApi_until poll check elapsed timeout interval delay maxA desc fuel
      = untilLoop poll check elapsed timeout maxA desc fuel 0 := by
  unfold WaitApi_until
  rw [if_neg (not_le.mpr ht), if_neg (not_le.mpr hi), if_neg (not_lt.mpr hd), if_neg]
  cases maxA with
  | none => simp
  | some k =>
    show ¬ (decide (k ≤ 0) = true)
    simp only [decide_eq_true_eq]
    exact not_le.mpr (hm k rfl)

theorem untilLoop_never_matches {α : Type} (poll : Nat → α) (elapsed : Nat → ℚ)
    (timeout : ℚ) (desc : Option String) (n : Nat) :
    ∀ (fuel attempts : Nat), attempts < n → n ≤ fuel + attempts →
      ∃ m, attempts < m ∧ m ≤ n ∧
        untilLoop poll (fun _ => false) elapsed timeout (some (n : Int)) desc fuel attempts
          = .timeout ⟨desc, timeout, m⟩ ∧
        (m = n ∨ timeout ≤ elapsed m) := by
  intro fuel
  induction fuel with
  | zero =>
    intro attempts h1 h2
    omega
  | succ f ih =>
    intro attempts h1 h2
    rw [untilLoop_never_step]
    by_cases hmax : ((n : Nat) : Int) ≤ ((attempts + 1 : Nat) : Int)
    · have heq : attempts + 1 = n := by omega
      refine ⟨attempts + 1, by omega, by omega, ?_, Or.inl heq⟩
      rw [if_pos hmax]
    · have hlt : attempts + 1 < n := by omega
      rw [if_neg hmax]
      by_cases hto : timeout ≤ elapsed (attempts + 1)
      · refine ⟨attempts + 1, by omega, by omega, ?_, Or.inr hto⟩
        rw [if_pos hto]
      · obtain ⟨m, hm1, hm2, hm3, hm4⟩ := ih (attempts + 1) hlt (by omega)
        refine ⟨m, by omega, hm2, ?_, hm4⟩
        rw [if_neg hto]
        exact hm3

/-- C9: (a) over the poll sequence `[0, 0, 3]` with predicate `value == 3`,
`WaitApi.until` returns `3` after exactly 3 polls whenever the wall-clock
budget is not hit at the first two misses; (b) with a never-matching
predicate and `max_attempts = n > 0`, it raises the timeout error (carrying
the attempt count and the optional description) after at most `n` polls —
exactly at the attempt cap or at the first poll whose elapsed time reaches
the budget, whichever comes first — and after exactly `n` polls when the
budget is not reached earlier. -/
theorem wait_until_poll_counts :
    (∀ (elapsed : Nat → ℚ) (timeout interval delay : ℚ) (fuel : Nat),
      0 < timeout → 0 < interval → 0 ≤ delay →
      elapsed 1 < timeout → elapsed 2 < timeout → 3 ≤ fuel →
      WaitApi_until (fun n => if n = 3 then (3 : Int) else 0) (fun v => v == 3) elapsed
          timeout interval delay none none fuel = .ok 3 3) ∧
    (∀ (poll : Nat → Int) (elapsed : Nat → ℚ) (timeout interval delay : ℚ)
      (desc : Option String) (n fuel : Nat),
      0 < timeout → 0 < interval → 0 ≤ delay → 0 < n → n ≤ fuel →
      (∃ m, 0 < m ∧ m ≤ n ∧
        WaitApi_until poll (fun _ => false) elapsed timeout interval delay
            (some (n : Int)) desc fuel = .timeout ⟨desc, timeout, m⟩ ∧
        (m = n ∨ timeout ≤ elapsed m)) ∧
      ((∀ k, 0 < k → k < n → elapsed k < timeout) →
        WaitApi_until poll (fun _ => false) elapsed timeout interval delay
            (some (n : Int)) desc fuel = .timeout ⟨desc, timeout, n⟩)) := by
  constructor
  · intro elapsed timeout interval delay fuel ht hi hd he1 he2 hf
    obtain ⟨k, rfl⟩ : ∃ k, fuel = k + 3 := ⟨fuel - 3, by omega⟩
    rw [WaitApi_until_run _ _ _ _ _ _ _ _ _ ht hi hd (fun k hk => Option.noConfusion hk)]
    rw [show k + 3 = (k + 2) + 1 from rfl, untilLoop_succ,
      if_neg (by decide), if_neg (by decide), if_neg (not_le.mpr he1)]
    rw [show k + 2 = (k + 1) + 1 from rfl, untilLoop_succ,
      if_neg (by decide), if_neg (by decide), if_neg (not_le.mpr he2)]
    rw [untilLoop_succ, if_pos (by decide)]
    norm_num
  · intro poll elapsed timeout interval delay desc n fuel ht hi hd hn hf
    have hvalid : WaitApi_until poll (fun _ => false) elapsed timeout interval delay
        (some (n : Int)) desc fuel
        = untilLoop poll (fun _ => false) elapsed timeout (some (n : Int)) desc fuel 0 :=
      WaitApi_until_run poll (fun _ => false) elapsed timeout interval delay
        (some (n : Int)) desc fuel ht hi hd
        (fun k hk => by
          injection hk with h
          omega)
    obtain ⟨m, hm1, hm2, hm3, hm4⟩ :=
      untilLoop_never_matches poll elapsed timeout desc n fuel 0 hn (by omega)
    refine ⟨⟨m, hm1, hm2, by rw [hvalid]; exact hm3, hm4⟩, fun hb => ?_⟩
    have hmn : m = n := by
      rcases hm4 with h | h
      · exact h
      · by_contra hne
        have hmlt : m < n := lt_of_le_of_ne hm2 hne
        exact absurd h (not_le.mpr (hb m hm1 hmlt))
    subst hmn
    rw [hvalid]
    exact hm3

/-- C9 witness: with a flat clock and a 60-second budget, the `[0,0,3]`
sequence succeeds with value 3 after exactly 3 polls, and a never-matching
predicate with `max_attempts = 5` times out at exactly 5 attempts. -/
theorem wait_until_poll_counts_witness :
    WaitApi_until (fun n => if n = 3 then (3 : Int) else 0) (fun v => v == 3) (fun _ => 0)
        60 (1/4) 0 none none 10 = .ok 3 3 ∧
    WaitApi_until (fun _ => (0 : Int)) (fun _ => false) (fun _ => 0)
        60 (1/4) 0 (some ((5 : Nat) : Int)) (some "never") 9
        = .timeout ⟨some "never", 60, 5⟩ := by
  constructor
  · exact wait_until_poll_counts.1 (fun _ => 0) 60 (1/4) 0 10 (by norm_num) (by norm_num)
      (by norm_num) (by norm_num) (by norm_num) (by norm_num)
  · exact (wait_until_poll_counts.2 (fun _ => (0 : Int)) (fun _ => 0) 60 (1/4) 0
      (some "never") 5 9 (by norm_num) (by norm_num) (by norm_num) (by norm_num)
      (by norm_num)).2 (fun k _ _ => by norm_num)

theorem normalize_ok {name : String} (h : pyStrip name ≠ "") :
    _normalize_skill_name name = .ok (pyStrip name) := by
  unfold _normalize_skill_name
  rw [if_neg h]

/-- C6: on a locked registry every `register`/`unregister` call fails with
the create-time-only catalog-mutation error and returns the registry
unchanged (the guard runs before any mutation); the same calls on an
unlocked draft registry succeed for any valid (non-blank) name. -/
theorem catalog_locked_rejects_mutation :
    (∀ (registry : SkillRegistry) (name : String) (handler : HandlerMeta)
       (description : Option String) (input_schema output_schema : Option PyVal)
       (sync_runtime : Bool),
      registry.catalog_locked = true →
        register registry name handler description input_schema output_schema sync_runtime
          = (registry, .error (.runtimeError _CATALOG_MUTATION_ERROR))) ∧
    (∀ (registry : SkillRegistry) (name : String) (sync_runtime : Bool),
      registry.catalog_locked = true →
        unregister registry name sync_runtime
          = (registry, .error (.runtimeError _CATALOG_MUTATION_ERROR))) ∧
    (∀ (registry : SkillRegistry) (name : String) (handler : HandlerMeta)
       (description : Option String) (input_schema output_schema : Option PyVal),
      registry.catalog_locked = false → pyStrip name ≠ "" →
        ∃ skill, register registry name handler description input_schema output_schema false
          = ({ registry with skills := assocSet registry.skills (pyStrip name) skill },
             .ok skill)) ∧
    (∀ (registry : SkillRegistry) (name : String),
      registry.catalog_locked = false → pyStrip name ≠ "" →
        unregister registry name false
          = ({ registry with skills := (assocPop registry.skills (pyStrip name)).2 },
             .ok (assocPop registry.skills (pyStrip name)).1.isSome)) := by
  refine ⟨?_, ?_, ?_, ?_⟩
  · intro registry name handler description input_schema output_schema sync_runtime hlock
    unfold register
    rw [if_pos hlock]
  · intro registry name sync_runtime hlock
    unfold unregister
    rw [if_pos hlock]
  · intro registry name handler description input_schema output_schema hlock hname
    unfold register
    rw [if_neg (by simp [hlock]), normalize_ok hname]
    refine ⟨{
      name := pyStrip name,
      description := _resolved_skill_description (pyStrip name) handler description,
      handler := handler,
      input_schema := _schema_enriched_with_docstrings handler input_schema,
      output_schema := _resolved_output_schema handler output_schema,
      output_description := _resolved_output_description handler output_schema }, ?_⟩
    rfl
  · intro registry name hlock hname
    unfold unregister
    rw [if_neg (by simp [hlock]), normalize_ok hname]
    simp

/-- C6 witness: a concrete locked registry rejects both calls unchanged and
a concrete draft registry accepts both. -/
theorem catalog_locked_rejects_mutation_witness :
    register ⟨[], ∅, none, true⟩ "ping" pingMeta none none none false
        = (⟨[], ∅, none, true⟩, .error (.runtimeError _CATALOG_MUTATION_ERROR)) ∧
    unregister ⟨[], ∅, none, true⟩ "ping" false
        = (⟨[], ∅, none, true⟩, .error (.runtimeError _CATALOG_MUTATION_ERROR)) ∧
    (∃ skill, register ⟨[], ∅, none, false⟩ "ping" pingMeta none none none false
        = (⟨[("ping", skill)], ∅, none, false⟩, .ok skill)) ∧
    unregister ⟨[], ∅, none, false⟩ "ping" false = (⟨[], ∅, none, false⟩, .ok false) := by
  refine ⟨?_, ?_, ?_, ?_⟩
  · exact catalog_locked_rejects_mutation.1 ⟨[], ∅, none, true⟩ "ping" pingMeta
      none none none false rfl
  · exact catalog_locked_rejects_mutation.2.1 ⟨[], ∅, none, true⟩ "ping" false rfl
  · obtain ⟨skill, hs⟩ := catalog_locked_rejects_mutation.2.2.1 ⟨[], ∅, none, false⟩ "ping"
      pingMeta none none none rfl (by decide)
    exact ⟨skill, hs⟩
  · exact catalog_locked_rejects_mutation.2.2.2 ⟨[], ∅, none, false⟩ "ping" rfl (by decide)

/-- C5 counterexample: registering the bare `ping` handler does NOT produce
the claimed tool definition with `additionalProperties: true` — the inferred
schema of an inspectable no-parameter signature sets it to `false`; the
permissive default schema is used only when introspection fails. -/
theorem ping_tool_definition_counterexample :
    _dynamic_tool_definitions
        (register ⟨[], ∅, none, false⟩ "ping" pingMeta none none none false).1.skills
      ≠ [PyVal.dictV [("name", .strV "ping"), ("description", .strV "Remote skill ping"),
          ("inputSchema", _DEFAULT_INPUT_SCHEMA)]] := by
  intro h
  have e : _dynamic_tool_definitions
      (register ⟨[], ∅, none, false⟩ "ping" pingMeta none none none false).1.skills
      = [PyVal.dictV [("name", .strV "ping"), ("description", .strV "Remote skill ping"),
          ("inputSchema", .dictV [("type", .strV "object"), ("properties", .dictV []),
            ("additionalProperties", .boolV false)])]] := rfl
  rw [e] at h
  simp [_DEFAULT_INPUT_SCHEMA] at h

/-- C5 (amended): registering a no-parameter `ping` handler returning
`"pong"` with no explicit schema, description, or docstring produces the
tool definition with name `ping`, description `Remote skill ping`, and
inferred inputSchema `{type: object, properties: {}, additionalProperties:
false}`. -/
theorem ping_tool_definition :
    _dynamic_tool_definitions
        (register ⟨[], ∅, none, false⟩ "ping" pingMeta none none none false).1.skills
      = [PyVal.dictV [("name", .strV "ping"), ("description", .strV "Remote skill ping"),
          ("inputSchema", .dictV [("type", .strV "object"), ("properties", .dictV []),
            ("additionalProperties", .boolV false)])]] := rfl

theorem parse_signal_tool {signal : AppServerSignal} {t : String}
    (h : (_parse_tool_call_signal signal).1 = some t) : pyStrip t = t ∧ t ≠ "" := by
  unfold _parse_tool_call_signal at h
  split at h
  · simp at h
  · dsimp only at h
    rcases hg : (match signal.params with
        | .dictV fields => PyVal.dictV fields
        | _ => PyVal.dictV []).getd "tool" with _ | b | n | s | items | fields <;>
      rw [hg] at h <;> simp only [] at h
    case strV =>
      by_cases hs : pyStrip s = ""
      · rw [if_pos hs] at h
        simp at h
      · rw [if_neg hs] at h
        simp only [Option.some.injEq] at h
        subst h
        exact ⟨pyStrip_idem s, hs⟩
    all_goals simp at h

theorem parse_pending_tool {record : PyVal} {t : String}
    (h : (_parse_pending_tool_call record).2.1 = some t) : pyStrip t = t ∧ t ≠ "" := by
  unfold _parse_pending_tool_call at h
  split at h
  case h_2 => simp at h
  case h_1 fields =>
    dsimp only at h
    rcases hg : (PyVal.dictV fields).getd "tool" with _ | b | n | s | items | fs <;>
      rw [hg] at h <;> simp only [] at h
    case strV =>
      by_cases hs : pyStrip s = ""
      · rw [if_pos hs] at h
        simp at h
      · rw [if_neg hs] at h
        simp only [Option.some.injEq] at h
        subst h
        exact ⟨pyStrip_idem s, hs⟩
    all_goals simp at h

theorem dispatch_tool_call_ok (registry : SkillRegistry) {t : String}
    (ht : pyStrip t = t) (hne : t ≠ "") (arguments request_id : PyVal)
    (call_id : Option String) :
    ∃ d, dispatch_tool_call registry t arguments request_id call_id = .ok d ∧
      d.request_id = request_id ∧ d.tool = t ∧ d.submission_status = none ∧
      d.submission_idempotent = false ∧
      (∀ skill v, registry.skills.lookup t = some skill →
        skill.handler.call arguments = .value v → d.handled = true) := by
  unfold dispatch_tool_call
  rw [normalize_of_stripped ht hne]
  dsimp only
  rcases hl : registry.skills.lookup t with _ | skill
  · dsimp only
    refine ⟨_, rfl, rfl, rfl, rfl, rfl, fun skill v hs => ?_⟩
    cases hs
  · dsimp only
    rcases hc : skill.handler.call arguments with v | _ | msg
    · dsimp only
      exact ⟨_, rfl, rfl, rfl, rfl, rfl, fun skill' v' hs hv => rfl⟩
    · dsimp only
      refine ⟨_, rfl, rfl, rfl, rfl, rfl, fun skill' v' hs hv => ?_⟩
      injection hs with e
      subst e
      rw [hc] at hv
      cases hv
    · dsimp only
      refine ⟨_, rfl, rfl, rfl, rfl, rfl, fun skill' v' hs hv => ?_⟩
      injection hs with e
      subst e
      rw [hc] at hv
      cases hv

theorem require_mode_ok {registry : SkillRegistry} {mode : String}
    (hm : mode = _DISPATCH_MODE_SIGNAL ∨ mode = _DISPATCH_MODE_POLLING)
    (hc : registry.dispatch_mode = none ∨ registry.dispatch_mode = some mode) :
    _require_dispatch_mode registry mode = .ok { registry with dispatch_mode := some mode } := by
  unfold _require_dispatch_mode
  rw [if_neg (by
    rcases hm with h | h <;> simp [h, _DISPATCH_MODE_SIGNAL, _DISPATCH_MODE_POLLING])]
  rcases hc with h | h
  · rw [h]
  · rw [h]
    simp only [if_pos rfl]
    cases registry
    simp_all

theorem require_mode_conflict {registry : SkillRegistry} {mode current : String}
    (hm : mode = _DISPATCH_MODE_SIGNAL ∨ mode = _DISPATCH_MODE_POLLING)
    (hc : registry.dispatch_mode = some current) (hne : current ≠ mode) :
    _require_dispatch_mode registry mode = .error (.runtimeError
      ("remote skill dispatch mode conflict: session locked to " ++ current ++ ", attempted "
        ++ mode ++ ". Call reset_dispatch_mode() before switching dispatch strategies.")) := by
  unfold _require_dispatch_mode
  rw [if_neg (by
    rcases hm with h | h <;> simp [h, _DISPATCH_MODE_SIGNAL, _DISPATCH_MODE_POLLING])]
  rw [hc]
  simp only [if_neg hne]

theorem respond_signal_ignored (choose : Finset String → Option String)
    (client : ToolCallsClient) (session_id : String) (registry : SkillRegistry)
    (signal : AppServerSignal) (a : Int) (r : ℚ)
    (hnm : matches_signal session_id signal = false) :
    respond_to_signal choose client session_id registry signal a r = ⟨registry, .ok none, 0⟩ := by
  unfold respond_to_signal
  rw [if_pos (by simp [hnm])]

theorem respond_signal_no_tool (choose : Finset String → Option String)
    (client : ToolCallsClient) (session_id : String) (registry : SkillRegistry)
    (signal : AppServerSignal) (a : Int) (r : ℚ)
    (hmatch : matches_signal session_id signal = true)
    (htool : (_parse_tool_call_signal signal).1 = none) :
    respond_to_signal choose client session_id registry signal a r = ⟨registry, .ok none, 0⟩ := by
  unfold respond_to_signal
  rw [if_neg (by simp [hmatch])]
  simp only [htool]

theorem respond_pending_ignored (choose : Finset String → Option String)
    (client : ToolCallsClient) (session_id : String) (registry : SkillRegistry)
    (pending_call : PyVal) (a : Int) (r : ℚ) {sid : String}
    (hsid : _pending_call_session_id pending_call = some sid) (hne : sid ≠ session_id) :
    respond_to_pending_call choose client session_id registry pending_call a r
      = ⟨registry, .ok none, 0⟩ := by
  unfold respond_to_pending_call
  rw [if_pos (by simp [hsid, hne])]

theorem respond_pending_no_tool (choose : Finset String → Option String)
    (client : ToolCallsClient) (session_id : String) (registry : SkillRegistry)
    (pending_call : PyVal) (a : Int) (r : ℚ)
    (hsid : ∀ sid, _pending_call_session_id pending_call = some sid → sid = session_id)
    (htool : (_parse_pending_tool_call pending_call).2.1 = none) :
    respond_to_pending_call choose client session_id registry pending_call a r
      = ⟨registry, .ok none, 0⟩ := by
  unfold respond_to_pending_call
  rw [if_neg (by
    rcases hp : _pending_call_session_id pending_call with _ | sid
    · simp
    · simp [hsid sid hp])]
  simp only [htool]

/-- C8: an indication that is not a tool call (absent/blank `tool`), and an
indication carrying a session/thread id different from the engine's, produce
no dispatch and leave the registry — dispatch-mode lock and dedup cache
included — byte-for-byte unchanged, with no network call, on both the signal
and the polling paths. -/
theorem non_tool_or_foreign_session_is_noop :
    (∀ (choose : Finset String → Option String) (client : ToolCallsClient)
       (session_id : String) (registry : SkillRegistry) (signal : AppServerSignal)
       (a : Int) (r : ℚ),
      (_parse_tool_call_signal signal).1 = none →
        respond_to_signal choose client session_id registry signal a r
          = ⟨registry, .ok none, 0⟩) ∧
    (∀ (choose : Finset String → Option String) (client : ToolCallsClient)
       (session_id : String) (registry : SkillRegistry) (signal : AppServerSignal)
       (a : Int) (r : ℚ) (sid : String),
      _signal_session_id signal = some sid → sid ≠ session_id →
        respond_to_signal choose client session_id registry signal a r
          = ⟨registry, .ok none, 0⟩) ∧
    (∀ (choose : Finset String → Option String) (client : ToolCallsClient)
       (session_id : String) (registry : SkillRegistry) (pending_call : PyVal)
       (a : Int) (r : ℚ),
      (∀ sid, _pending_call_session_id pending_call = some sid → sid = session_id) →
      (_parse_pending_tool_call pending_call).2.1 = none →
        respond_to_pending_call choose client session_id registry pending_call a r
          = ⟨registry, .ok none, 0⟩) ∧
    (∀ (choose : Finset String → Option String) (client : ToolCallsClient)
       (session_id : String) (registry : SkillRegistry) (pending_call : PyVal)
       (a : Int) (r : ℚ) (sid : String),
      _pending_call_session_id pending_call = some sid → sid ≠ session_id →
        respond_to_pending_call choose client session_id registry pending_call a r
          = ⟨registry, .ok none, 0⟩) := by
  refine ⟨?_, ?_, ?_, ?_⟩
  · intro choose client session_id registry signal a r htool
    by_cases hm : matches_signal session_id signal = true
    · exact respond_signal_no_tool choose client session_id registry signal a r hm htool
    · exact respond_signal_ignored choose client session_id registry signal a r
        (by revert hm; cases matches_signal session_id signal <;> simp)
  · intro choose client session_id registry signal a r sid hsid hne
    refine respond_signal_ignored choose client session_id registry signal a r ?_
    unfold matches_signal
    rw [hsid]
    simp [hne]
  · intro choose client session_id registry pending_call a r hsid htool
    exact respond_pending_no_tool choose client session_id registry pending_call a r hsid htool
  · intro choose client session_id registry pending_call a r sid hsid hne
    exact respond_pending_ignored choose client session_id registry pending_call a r hsid hne

/-- C8 witness: a non-tool signal on a matching session, and concrete
foreign-session indications on both paths, are exact no-ops. -/
theorem non_tool_or_foreign_session_is_noop_witness :
    respond_to_signal sortChoose nullClient "session-1" ⟨[], ∅, none, true⟩
        { pingSignal with params := .dictV [] } 3 (1/20) = ⟨⟨[], ∅, none, true⟩, .ok none, 0⟩ ∧
    respond_to_signal sortChoose nullClient "session-2" ⟨[], ∅, none, true⟩ pingSignal 3 (1/20)
        = ⟨⟨[], ∅, none, true⟩, .ok none, 0⟩ ∧
    respond_to_pending_call sortChoose nullClient "session-2" ⟨[], ∅, none, true⟩ pingPending
        3 (1/20) = ⟨⟨[], ∅, none, true⟩, .ok none, 0⟩ := by
  refine ⟨?_, ?_, ?_⟩
  · exact non_tool_or_foreign_session_is_noop.1 sortChoose nullClient "session-1"
      ⟨[], ∅, none, true⟩ { pingSignal with params := .dictV [] } 3 (1/20) rfl
  · exact non_tool_or_foreign_session_is_noop.2.1 sortChoose nullClient "session-2"
      ⟨[], ∅, none, true⟩ pingSignal 3 (1/20) "session-1" rfl (by decide)
  · exact non_tool_or_foreign_session_is_noop.2.2.2 sortChoose nullClient "session-2"
      ⟨[], ∅, none, true⟩ pingPending 3 (1/20) "session-1" rfl (by decide)

theorem respond_signal_steps (choose : Finset String → Option String)
    (client : ToolCallsClient) (session_id : String) (registry : SkillRegistry)
    (signal : AppServerSignal) (a : Int) (r : ℚ) {t : String}
    (hmode : registry.dispatch_mode = none ∨ registry.dispatch_mode = some _DISPATCH_MODE_SIGNAL)
    (hmatch : matches_signal session_id signal = true)
    (htool : (_parse_tool_call_signal signal).1 = some t) :
    ∃ d, dispatch_tool_call { registry with dispatch_mode := some _DISPATCH_MODE_SIGNAL } t
        (_parse_tool_call_signal signal).2.1 signal.request_id
        (_parse_tool_call_signal signal).2.2 = .ok d ∧
      d.request_id = signal.request_id ∧ d.submission_status = none ∧
      d.submission_idempotent = false ∧
      (∀ skill v, registry.skills.lookup t = some skill →
        skill.handler.call (_parse_tool_call_signal signal).2.1 = .value v →
        d.handled = true) ∧
      respond_to_signal choose client session_id registry signal a r =
        (match _to_request_id_string signal.request_id with
         | none => ⟨{ registry with dispatch_mode := some _DISPATCH_MODE_SIGNAL },
             .ok (some { d with submission_status := some "no_request_id" }), 0⟩
         | some request_id =>
           if request_id ∈ registry.handled_request_ids then
             ⟨{ registry with dispatch_mode := some _DISPATCH_MODE_SIGNAL },
              .ok (some { d with
                submission_status := some "local_duplicate",
                submission_idempotent := true }), 0⟩
           else
             let sn := _submit_tool_call_response client request_id d.response_payload a r
             let fin := _finalize_submitted_dispatch choose
               { registry with dispatch_mode := some _DISPATCH_MODE_SIGNAL } d sn.1 request_id
             ⟨fin.2, .ok (some fin.1), sn.2⟩) := by
  obtain ⟨ht, hne⟩ := parse_signal_tool htool
  obtain ⟨d, hd, hdr, hdt, hds, hdi, hdh⟩ :=
    dispatch_tool_call_ok { registry with dispatch_mode := some _DISPATCH_MODE_SIGNAL } ht hne
      (_parse_tool_call_signal signal).2.1 signal.request_id (_parse_tool_call_signal signal).2.2
  refine ⟨d, hd, hdr, hds, hdi, fun skill v hs hv => hdh skill v hs hv, ?_⟩
  unfold respond_to_signal
  rw [if_neg (by simp [hmatch])]
  dsimp only
  rw [htool]
  dsimp only
  rw [require_mode_ok (Or.inl rfl) hmode]
  dsimp only
  rw [hd]
  dsimp only
  rw [hdr]

theorem respond_pending_steps (choose : Finset String → Option String)
    (client : ToolCallsClient) (session_id : String) (registry : SkillRegistry)
    (pending_call : PyVal) (a : Int) (r : ℚ) {t : String}
    (hmode : registry.dispatch_mode = none
      ∨ registry.dispatch_mode = some _DISPATCH_MODE_POLLING)
    (hsid : ∀ sid, _pending_call_session_id pending_call = some sid → sid = session_id)
    (htool : (_parse_pending_tool_call pending_call).2.1 = some t) :
    ∃ d, dispatch_tool_call { registry with dispatch_mode := some _DISPATCH_MODE_POLLING } t
        (_parse_pending_tool_call pending_call).2.2.1 (_parse_pending_tool_call pending_call).1
        (_parse_pending_tool_call pending_call).2.2.2 = .ok d ∧
      d.request_id = (_parse_pending_tool_call pending_call).1 ∧
      d.submission_status = none ∧ d.submission_idempotent = false ∧
      (∀ skill v, registry.skills.lookup t = some skill →
        skill.handler.call (_parse_pending_tool_call pending_call).2.2.1 = .value v →
        d.handled = true) ∧
      respond_to_pending_call choose client session_id registry pending_call a r =
        (match _to_request_id_string (_parse_pending_tool_call pending_call).1 with
         | none => ⟨{ registry with dispatch_mode := some _DISPATCH_MODE_POLLING },
             .ok (some { d with submission_status := some "no_request_id" }), 0⟩
         | some request_id =>
           if request_id ∈ registry.handled_request_ids then
             ⟨{ registry with dispatch_mode := some _DISPATCH_MODE_POLLING },
              .ok (some { d with
                submission_status := some "local_duplicate",
                submission_idempotent := true }), 0⟩
           else
             let sn := _submit_tool_call_response client request_id d.response_payload a r
             let fin := _finalize_submitted_dispatch choose
               { registry with dispatch_mode := some _DISPATCH_MODE_POLLING } d sn.1 request_id
             ⟨fin.2, .ok (some fin.1), sn.2⟩) := by
  obtain ⟨ht, hne⟩ := parse_pending_tool htool
  obtain ⟨d, hd, hdr, hdt, hds, hdi, hdh⟩ :=
    dispatch_tool_call_ok { registry with dispatch_mode := some _DISPATCH_MODE_POLLING } ht hne
      (_parse_pending_tool_call pending_call).2.2.1 (_parse_pending_tool_call pending_call).1
      (_parse_pending_tool_call pending_call).2.2.2
  refine ⟨d, hd, hdr, hds, hdi, fun skill v hs hv => hdh skill v hs hv, ?_⟩
  unfold respond_to_pending_call
  rw [if_neg (by
    rcases hp : _pending_call_session_id pending_call with _ | sid
    · simp
    · simp [hsid sid hp])]
  dsimp only
  rw [htool]
  dsimp only
  rw [require_mode_ok (Or.inr rfl) hmode]
  dsimp only
  rw [hd]
  dsimp only
  rw [hdr]

/-- C1: when the arrival channel is compatible with the registry's
dispatch-mode lock, a tool-call indication whose request id is already in
`handled_request_ids` yields a Dispatch with
`submission_status="local_duplicate"` and `submission_idempotent=true`, with
zero `tool_calls.respond` network calls and the dedup cache unchanged, on
both the signal and the polling paths. -/
theorem local_duplicate_short_circuits :
    (∀ (choose : Finset String → Option String) (client : ToolCallsClient)
       (session_id : String) (registry : SkillRegistry) (signal : AppServerSignal)
       (a : Int) (r : ℚ) (t rid : String),
      registry.dispatch_mode = none ∨ registry.dispatch_mode = some _DISPATCH_MODE_SIGNAL →
      matches_signal session_id signal = true →
      (_parse_tool_call_signal signal).1 = some t →
      _to_request_id_string signal.request_id = some rid →
      rid ∈ registry.handled_request_ids →
      ∃ d, (respond_to_signal choose client session_id registry signal a r).outcome
            = .ok (some d) ∧
        d.submission_status = some "local_duplicate" ∧ d.submission_idempotent = true ∧
        (respond_to_signal choose client session_id registry signal a r).networkCalls = 0 ∧
        (respond_to_signal choose client session_id registry signal a r).registry.handled_request_ids
            = registry.handled_request_ids) ∧
    (∀ (choose : Finset String → Option String) (client : ToolCallsClient)
       (session_id : String) (registry : SkillRegistry) (pending_call : PyVal)
       (a : Int) (r : ℚ) (t rid : String),
      registry.dispatch_mode = none ∨ registry.dispatch_mode = some _DISPATCH_MODE_POLLING →
      (∀ sid, _pending_call_session_id pending_call = some sid → sid = session_id) →
      (_parse_pending_tool_call pending_call).2.1 = some t →
      _to_request_id_string (_parse_pending_tool_call pending_call).1 = some rid →
      rid ∈ registry.handled_request_ids →
      ∃ d, (respond_to_pending_call choose client session_id registry pending_call a r).outcome
            = .ok (some d) ∧
        d.submission_status = some "local_duplicate" ∧ d.submission_idempotent = true ∧
        (respond_to_pending_call choose client session_id registry pending_call a r).networkCalls
            = 0 ∧
        (respond_to_pending_call choose client session_id registry pending_call
            a r).registry.handled_request_ids = registry.handled_request_ids) := by
  constructor
  · intro choose client session_id registry signal a r t rid hmode hmatch htool hrid hdup
    obtain ⟨d, hd, hdr, hds, hdi, hdh, heq⟩ :=
      respond_signal_steps choose client session_id registry signal a r hmode hmatch htool
    rw [heq, hrid]
    dsimp only
    rw [if_pos hdup]
    exact ⟨_, rfl, rfl, rfl, rfl, rfl⟩
  · intro choose client session_id registry pending_call a r t rid hmode hsid htool hrid hdup
    obtain ⟨d, hd, hdr, hds, hdi, hdh, heq⟩ :=
      respond_pending_steps choose client session_id registry pending_call a r hmode hsid htool
    rw [heq, hrid]
    dsimp only
    rw [if_pos hdup]
    exact ⟨_, rfl, rfl, rfl, rfl, rfl⟩

/-- C1 witness: a concrete duplicate request id (`req-1`, already cached)
short-circuits the signal path with no network call. -/
theorem local_duplicate_short_circuits_witness :
    ∃ d, (respond_to_signal sortChoose nullClient "session-1"
          ⟨[], {"req-1"}, none, false⟩ pingSignal 3 (1/20)).outcome = .ok (some d) ∧
      d.submission_status = some "local_duplicate" ∧ d.submission_idempotent = true ∧
      (respond_to_signal sortChoose nullClient "session-1"
          ⟨[], {"req-1"}, none, false⟩ pingSignal 3 (1/20)).networkCalls = 0 ∧
      (respond_to_signal sortChoose nullClient "session-1"
          ⟨[], {"req-1"}, none, false⟩ pingSignal 3 (1/20)).registry.handled_request_ids
        = ({"req-1"} : Finset String) :=
  local_duplicate_short_circuits.1 sortChoose nullClient "session-1"
    ⟨[], {"req-1"}, none, false⟩ pingSignal 3 (1/20) "ping" "req-1"
    (Or.inl rfl) rfl rfl rfl (by decide)

theorem parse_pending_req_noneV {record j : PyVal}
    (hj : record.getd "requestId" = j) (hiso : isStrIntOrBool j = false) :
    (_parse_pending_tool_call record).1 = .noneV := by
  unfold _parse_pending_tool_call
  rcases record with _ | b | n | s | items | fields
  case dictV =>
    dsimp only
    have hr : (match (PyVal.dictV fields).getd "requestId" with
        | .strV s => PyVal.strV s
        | .intV n => PyVal.intV n
        | .boolV b => PyVal.boolV b
        | _ => PyVal.noneV) = PyVal.noneV := by
      rw [hj]
      cases j <;> simp_all [isStrIntOrBool]
    rw [hr]
    rcases hg : (PyVal.dictV fields).getd "tool" with _ | b | n | s | items | fs <;> dsimp only
    case strV =>
      split <;> rfl
  all_goals rfl

/-- C10: a session-matching tool-call indication whose request id is absent,
a blank string, or (on the polling path, via parse normalization) of a
non-string non-integer type, yields a Dispatch with
`submission_status="no_request_id"`, makes no network call, leaves
`handled_request_ids` unchanged, and keeps the locally-computed `handled`
flag (true when the registered handler returned a value). -/
theorem no_request_id_skips_submission :
    (∀ (choose : Finset String → Option String) (client : ToolCallsClient)
       (session_id : String) (registry : SkillRegistry) (signal : AppServerSignal)
       (a : Int) (r : ℚ) (t : String),
      registry.dispatch_mode = none ∨ registry.dispatch_mode = some _DISPATCH_MODE_SIGNAL →
      matches_signal session_id signal = true →
      (_parse_tool_call_signal signal).1 = some t →
      (signal.request_id = .noneV ∨ ∃ s, signal.request_id = .strV s ∧ pyStrip s = "") →
      ∃ d, (respond_to_signal choose client session_id registry signal a r).outcome
            = .ok (some d) ∧
        d.submission_status = some "no_request_id" ∧
        (respond_to_signal choose client session_id registry signal a r).networkCalls = 0 ∧
        (respond_to_signal choose client session_id registry signal
            a r).registry.handled_request_ids = registry.handled_request_ids ∧
        (∀ skill v, registry.skills.lookup t = some skill →
          skill.handler.call (_parse_tool_call_signal signal).2.1 = .value v →
          d.handled = true)) ∧
    (∀ (choose : Finset String → Option String) (client : ToolCallsClient)
       (session_id : String) (registry : SkillRegistry) (pending_call : PyVal)
       (a : Int) (r : ℚ) (t : String),
      registry.dispatch_mode = none ∨ registry.dispatch_mode = some _DISPATCH_MODE_POLLING →
      (∀ sid, _pending_call_session_id pending_call = some sid → sid = session_id) →
      (_parse_pending_tool_call pending_call).2.1 = some t →
      ((_parse_pending_tool_call pending_call).1 = .noneV ∨
        ∃ s, (_parse_pending_tool_call pending_call).1 = .strV s ∧ pyStrip s = "") →
      ∃ d, (respond_to_pending_call choose client session_id registry pending_call a r).outcome
            = .ok (some d) ∧
        d.submission_status = some "no_request_id" ∧
        (respond_to_pending_call choose client session_id registry pending_call a r).networkCalls
            = 0 ∧
        (respond_to_pending_call choose client session_id registry pending_call
            a r).registry.handled_request_ids = registry.handled_request_ids ∧
        (∀ skill v, registry.skills.lookup t = some skill →
          skill.handler.call (_parse_pending_tool_call pending_call).2.2.1 = .value v →
          d.handled = true)) ∧
    (∀ (record j : PyVal), record.getd "requestId" = j → isStrIntOrBool j = false →
      (_parse_pending_tool_call record).1 = .noneV) := by
  have hnone : ∀ (v : PyVal),
      (v = .noneV ∨ ∃ s, v = .strV s ∧ pyStrip s = "") → _to_request_id_string v = none := by
    intro v hv
    rcases hv with rfl | ⟨s, rfl, hs⟩
    · rfl
    · simp [_to_request_id_string, _as_non_empty_string, hs]
  refine ⟨?_, ?_, fun record j hj hiso => parse_pending_req_noneV hj hiso⟩
  · intro choose client session_id registry signal a r t hmode hmatch htool hreq
    obtain ⟨d, hd, hdr, hds, hdi, hdh, heq⟩ :=
      respond_signal_steps choose client session_id registry signal a r hmode hmatch htool
    rw [heq, hnone signal.request_id hreq]
    dsimp only
    exact ⟨_, rfl, rfl, rfl, rfl, fun skill v hs hv => hdh skill v hs hv⟩
  · intro choose client session_id registry pending_call a r t hmode hsid htool hreq
    obtain ⟨d, hd, hdr, hds, hdi, hdh, heq⟩ :=
      respond_pending_steps choose client session_id registry pending_call a r hmode hsid htool
    rw [heq, hnone (_parse_pending_tool_call pending_call).1 hreq]
    dsimp only
    exact ⟨_, rfl, rfl, rfl, rfl, fun skill v hs hv => hdh skill v hs hv⟩

/-- C10 witness: a ping signal with no request id on a session with the ping
skill registered dispatches locally (handled=true), is marked
`no_request_id`, and makes no network call; and a concrete object-typed
`requestId` parses to none. -/
theorem no_request_id_skips_submission_witness :
    (∃ d, (respond_to_signal sortChoose nullClient "session-1"
          (register ⟨[], ∅, none, false⟩ "ping" pingMeta none none none false).1
          { pingSignal with request_id := .noneV } 3 (1/20)).outcome = .ok (some d) ∧
      d.submission_status = some "no_request_id" ∧
      (respond_to_signal sortChoose nullClient "session-1"
          (register ⟨[], ∅, none, false⟩ "ping" pingMeta none none none false).1
          { pingSignal with request_id := .noneV } 3 (1/20)).networkCalls = 0 ∧
      (respond_to_signal sortChoose nullClient "session-1"
          (register ⟨[], ∅, none, false⟩ "ping" pingMeta none none none false).1
          { pingSignal with request_id := .noneV } 3 (1/20)).registry.handled_request_ids
        = (∅ : Finset String) ∧
      (∀ skill v,
        (register ⟨[], ∅, none, false⟩ "ping" pingMeta
            none none none false).1.skills.lookup "ping" = some skill →
        skill.handler.call (_parse_tool_call_signal
          { pingSignal with request_id := .noneV }).2.1 = .value v →
        d.handled = true)) ∧
    (_parse_pending_tool_call (.dictV [("requestId", .dictV []), ("tool", .strV "ping")])).1
      = .noneV := by
  constructor
  · exact no_request_id_skips_submission.1 sortChoose nullClient "session-1"
      (register ⟨[], ∅, none, false⟩ "ping" pingMeta none none none false).1
      { pingSignal with request_id := .noneV } 3 (1/20) "ping"
      (Or.inl rfl) rfl rfl (Or.inl rfl)
  · exact no_request_id_skips_submission.2.2
      (.dictV [("requestId", .dictV []), ("tool", .strV "ping")]) (.dictV []) rfl rfl

theorem finalize_registry_mode (choose : Finset String → Option String)
    (registry : SkillRegistry) (dispatched : RemoteSkillDispatch)
    (submission : ToolCallSubmission) (request_id : String) :
    (_finalize_submitted_dispatch choose registry dispatched submission
        request_id).2.dispatch_mode = registry.dispatch_mode := by
  unfold _finalize_submitted_dispatch
  by_cases h : submission.accepted <;> simp [h]

theorem respond_signal_succeeds (choose : Finset String → Option String)
    (client : ToolCallsClient) (session_id : String) (registry : SkillRegistry)
    (signal : AppServerSignal) (a : Int) (r : ℚ) {t : String}
    (hmode : registry.dispatch_mode = none ∨ registry.dispatch_mode = some _DISPATCH_MODE_SIGNAL)
    (hmatch : matches_signal session_id signal = true)
    (htool : (_parse_tool_call_signal signal).1 = some t) :
    (respond_to_signal choose client session_id registry signal a r).registry.dispatch_mode
        = some _DISPATCH_MODE_SIGNAL ∧
    ∃ d, (respond_to_signal choose client session_id registry signal a r).outcome
        = .ok (some d) := by
  obtain ⟨d, hd, hdr, hds, hdi, hdh, heq⟩ :=
    respond_signal_steps choose client session_id registry signal a r hmode hmatch htool
  rw [heq]
  rcases hr : _to_request_id_string signal.request_id with _ | rid
  · exact ⟨rfl, _, rfl⟩
  · dsimp only
    by_cases hdup : rid ∈ registry.handled_request_ids
    · rw [if_pos hdup]
      exact ⟨rfl, _, rfl⟩
    · rw [if_neg hdup]
      refine ⟨?_, _, rfl⟩
      exact (finalize_registry_mode choose
        { registry with dispatch_mode := some _DISPATCH_MODE_SIGNAL } d _ rid).trans rfl

theorem respond_pending_succeeds (choose : Finset String → Option String)
    (client : ToolCallsClient) (session_id : String) (registry : SkillRegistry)
    (pending_call : PyVal) (a : Int) (r : ℚ) {t : String}
    (hmode : registry.dispatch_mode = none
      ∨ registry.dispatch_mode = some _DISPATCH_MODE_POLLING)
    (hsid : ∀ sid, _pending_call_session_id pending_call = some sid → sid = session_id)
    (htool : (_parse_pending_tool_call pending_call).2.1 = some t) :
    (respond_to_pending_call choose client session_id registry
        pending_call a r).registry.dispatch_mode = some _DISPATCH_MODE_POLLING ∧
    ∃ d, (respond_to_pending_call choose client session_id registry pending_call a r).outcome
        = .ok (some d) := by
  obtain ⟨d, hd, hdr, hds, hdi, hdh, heq⟩ :=
    respond_pending_steps choose client session_id registry pending_call a r hmode hsid htool
  rw [heq]
  rcases hr : _to_request_id_string (_parse_pending_tool_call pending_call).1 with _ | rid
  · exact ⟨rfl, _, rfl⟩
  · dsimp only
    by_cases hdup : rid ∈ registry.handled_request_ids
    · rw [if_pos hdup]
      exact ⟨rfl, _, rfl⟩
    · rw [if_neg hdup]
      refine ⟨?_, _, rfl⟩
      exact (finalize_registry_mode choose
        { registry with dispatch_mode := some _DISPATCH_MODE_POLLING } d _ rid).trans rfl

/-- C7: on a fresh registry the first real dispatch locks `dispatch_mode` to
its arrival channel and succeeds; a later dispatch on the other channel
raises the dispatch-mode-conflict RuntimeError with the registry unchanged,
no dispatch and no network call; after `reset_dispatch_mode` a dispatch on
either channel succeeds again. -/
theorem dispatch_mode_exclusivity :
    (∀ (choose : Finset String → Option String) (client : ToolCallsClient)
       (session_id : String) (registry : SkillRegistry) (signal : AppServerSignal)
       (a : Int) (r : ℚ) (t : String),
      registry.dispatch_mode = none →
      matches_signal session_id signal = true →
      (_parse_tool_call_signal signal).1 = some t →
        (respond_to_signal choose client session_id registry signal a r).registry.dispatch_mode
            = some _DISPATCH_MODE_SIGNAL ∧
        ∃ d, (respond_to_signal choose client session_id registry signal a r).outcome
            = .ok (some d)) ∧
    (∀ (choose : Finset String → Option String) (client : ToolCallsClient)
       (session_id : String) (registry : SkillRegistry) (pending_call : PyVal)
       (a : Int) (r : ℚ) (t : String),
      registry.dispatch_mode = none →
      (∀ sid, _pending_call_session_id pending_call = some sid → sid = session_id) →
      (_parse_pending_tool_call pending_call).2.1 = some t →
        (respond_to_pending_call choose client session_id registry
            pending_call a r).registry.dispatch_mode = some _DISPATCH_MODE_POLLING ∧
        ∃ d, (respond_to_pending_call choose client session_id registry
            pending_call a r).outcome = .ok (some d)) ∧
    (∀ (choose : Finset String → Option String) (client : ToolCallsClient)
       (session_id : String) (registry : SkillRegistry) (pending_call : PyVal)
       (a : Int) (r : ℚ) (t : String),
      registry.dispatch_mode = some _DISPATCH_MODE_SIGNAL →
      (∀ sid, _pending_call_session_id pending_call = some sid → sid = session_id) →
      (_parse_pending_tool_call pending_call).2.1 = some t →
        respond_to_pending_call choose client session_id registry pending_call a r
          = ⟨registry, .error (.runtimeError
              ("remote skill dispatch mode conflict: session locked to "
                ++ _DISPATCH_MODE_SIGNAL ++ ", attempted " ++ _DISPATCH_MODE_POLLING
                ++ ". Call reset_dispatch_mode() before switching dispatch strategies.")),
             0⟩) ∧
    (∀ (choose : Finset String → Option String) (client : ToolCallsClient)
       (session_id : String) (registry : SkillRegistry) (signal : AppServerSignal)
       (a : Int) (r : ℚ) (t : String),
      registry.dispatch_mode = some _DISPATCH_MODE_POLLING →
      matches_signal session_id signal = true →
      (_parse_tool_call_signal signal).1 = some t →
        respond_to_signal choose client session_id registry signal a r
          = ⟨registry, .error (.runtimeError
              ("remote skill dispatch mode conflict: session locked to "
                ++ _DISPATCH_MODE_POLLING ++ ", attempted " ++ _DISPATCH_MODE_SIGNAL
                ++ ". Call reset_dispatch_mode() before switching dispatch strategies.")),
             0⟩) ∧
    (∀ (choose : Finset String → Option String) (client : ToolCallsClient)
       (session_id : String) (registry : SkillRegistry) (signal : AppServerSignal)
       (a : Int) (r : ℚ) (t : String),
      matches_signal session_id signal = true →
      (_parse_tool_call_signal signal).1 = some t →
        ∃ d, (respond_to_signal choose client session_id (reset_dispatch_mode registry)
            signal a r).outcome = .ok (some d)) ∧
    (∀ (choose : Finset String → Option String) (client : ToolCallsClient)
       (session_id : String) (registry : SkillRegistry) (pending_call : PyVal)
       (a : Int) (r : ℚ) (t : String),
      (∀ sid, _pending_call_session_id pending_call = some sid → sid = session_id) →
      (_parse_pending_tool_call pending_call).2.1 = some t →
        ∃ d, (respond_to_pending_call choose client session_id (reset_dispatch_mode registry)
            pending_call a r).outcome = .ok (some d)) := by
  refine ⟨?_, ?_, ?_, ?_, ?_, ?_⟩
  · intro choose client session_id registry signal a r t hfresh hmatch htool
    exact respond_signal_succeeds choose client session_id registry signal a r
      (Or.inl hfresh) hmatch htool
  · intro choose client session_id registry pending_call a r t hfresh hsid htool
    exact respond_pending_succeeds choose client session_id registry pending_call a r
      (Or.inl hfresh) hsid htool
  · intro choose client session_id registry pending_call a r t hlocked hsid htool
    unfold respond_to_pending_call
    rw [if_neg (by
      rcases hp : _pending_call_session_id pending_call with _ | sid
      · simp
      · simp [hsid sid hp])]
    dsimp only
    rw [htool]
    dsimp only
    rw [require_mode_conflict (Or.inr rfl) hlocked (by decide)]
  · intro choose client session_id registry signal a r t hlocked hmatch htool
    unfold respond_to_signal
    rw [if_neg (by simp [hmatch])]
    dsimp only
    rw [htool]
    dsimp only
    rw [require_mode_conflict (Or.inl rfl) hlocked (by decide)]
  · intro choose client session_id registry signal a r t hmatch htool
    exact (respond_signal_succeeds choose client session_id (reset_dispatch_mode registry)
      signal a r (Or.inl rfl) hmatch htool).2
  · intro choose client session_id registry pending_call a r t hsid htool
    exact (respond_pending_succeeds choose client session_id (reset_dispatch_mode registry)
      pending_call a r (Or.inl rfl) hsid htool).2

/-- C7 witness: a fresh registry locks to signal mode on a ping signal; a
signal-locked registry rejects a polled ping with the conflict error,
unchanged and without any network call; after reset the same polled ping
succeeds. -/
theorem dispatch_mode_exclusivity_witness :
    ((respond_to_signal sortChoose nullClient "session-1" ⟨[], ∅, none, false⟩ pingSignal
        3 (1/20)).registry.dispatch_mode = some _DISPATCH_MODE_SIGNAL ∧
      ∃ d, (respond_to_signal sortChoose nullClient "session-1" ⟨[], ∅, none, false⟩ pingSignal
        3 (1/20)).outcome = .ok (some d)) ∧
    respond_to_pending_call sortChoose nullClient "session-1"
        ⟨[], ∅, some _DISPATCH_MODE_SIGNAL, false⟩ pingPending 3 (1/20)
      = ⟨⟨[], ∅, some _DISPATCH_MODE_SIGNAL, false⟩, .error (.runtimeError
          ("remote skill dispatch mode conflict: session locked to "
            ++ _DISPATCH_MODE_SIGNAL ++ ", attempted " ++ _DISPATCH_MODE_POLLING
            ++ ". Call reset_dispatch_mode() before switching dispatch strategies.")), 0⟩ ∧
    ∃ d, (respond_to_pending_call sortChoose nullClient "session-1"
        (reset_dispatch_mode ⟨[], ∅, some _DISPATCH_MODE_SIGNAL, false⟩) pingPending
        3 (1/20)).outcome = .ok (some d) := by
  have hsid : ∀ sid, _pending_call_session_id pingPending = some sid → sid = "session-1" := by
    intro sid h
    have e : _pending_call_session_id pingPending = some "session-1" := rfl
    rw [e] at h
    injection h with h2
    exact h2.symm
  refine ⟨?_, ?_, ?_⟩
  · exact dispatch_mode_exclusivity.1 sortChoose nullClient "session-1" ⟨[], ∅, none, false⟩
      pingSignal 3 (1/20) "ping" rfl rfl rfl
  · exact dispatch_mode_exclusivity.2.2.1 sortChoose nullClient "session-1"
      ⟨[], ∅, some _DISPATCH_MODE_SIGNAL, false⟩ pingPending 3 (1/20) "ping" rfl hsid rfl
  · exact dispatch_mode_exclusivity.2.2.2.2.2 sortChoose nullClient "session-1"
      ⟨[], ∅, some _DISPATCH_MODE_SIGNAL, false⟩ pingPending 3 (1/20) "ping" hsid rfl

end CodexManager
